import Mathlib

/-!
Verification development for the wind-farm analytics MCP server
(`src/mcp/server.py`, `src/mcp/parquet_data_reader.py`).

Python strings are embedded as `List Char`; the Python string operations
used by the code (`lower`, `strip`, `startswith`, `in`, `replace`,
`isdigit`) are modelled character-exactly for the ASCII data this code
processes.  Fallible steps (Python exceptions) are modelled with `Option`.
Functions that scan a string with forward jumps carry an explicit fuel
argument (one unit per scanned position, so `s.length` fuel always
suffices); this keeps every definition structurally recursive and hence
executable by `decide`/`rfl`.
-/

/-- Python strings, embedded as lists of characters. -/
abbrev Str := List Char

/-- Coercion helper from Lean string literals to the embedding. -/
def S (s : String) : Str := s.data

/-- Python `str.lower()` for the ASCII range: `Char.toLower` maps `A`-`Z`
to `a`-`z` and fixes everything else, exactly like CPython on ASCII. -/
def pyLower (s : Str) : Str := s.map Char.toLower

/-- Python `str.upper()` for the ASCII range. -/
def pyUpper (s : Str) : Str := s.map Char.toUpper

/-- The ASCII whitespace characters stripped by Python `str.strip()` and
matched by the regex class `\s`. -/
def isPySpace (c : Char) : Bool :=
  c = ' ' || c = '\t' || c = '\n' || c = '\x0d' || c = '\x0b' || c = '\x0c'

/-- Python `str.strip()`: drop leading and trailing whitespace. -/
def pyStrip (s : Str) : Str :=
  ((s.dropWhile isPySpace).reverse.dropWhile isPySpace).reverse

/-- Python `needle in haystack` substring test. -/
def pyContains (s p : Str) : Bool :=
  match s with
  | [] => p.isEmpty
  | c :: t => p.isPrefixOf (c :: t) || pyContains t p

/-- Python `s.startswith(p)`. -/
def pyStartsWith (s p : Str) : Bool := p.isPrefixOf s

/-- Python `str.isdigit()` (ASCII): non-empty and all characters digits. -/
def pyIsDigit (s : Str) : Bool := !s.isEmpty && s.all Char.isDigit

/-- Worker for Python `str.replace(pat, repl)` (all non-overlapping
occurrences, scanned left to right).  `fuel` bounds the number of scan
steps; each step consumes at least one character of `s`, so `s.length`
fuel always suffices and the `0` case is never reached from `pyReplace`.
The `pat ≠ []` guard departs from Python only for an empty pattern, which
no call site uses. -/
def pyReplaceAux (pat repl : Str) : Nat → Str → Str
  | 0, s => s
  | _ + 1, [] => []
  | fuel + 1, c :: t =>
    if pat ≠ [] ∧ pat.isPrefixOf (c :: t) then
      repl ++ pyReplaceAux pat repl fuel ((c :: t).drop pat.length)
    else
      c :: pyReplaceAux pat repl fuel t

/-- Python `s.replace(pat, repl)`. -/
def pyReplace (s pat repl : Str) : Str := pyReplaceAux pat repl s.length s

/-- First match of the regex `\d+` (first maximal run of digits), as used
via `re.findall(r'\d+', s)[0]` in `ParquetDataReader._normalize_wind_farm_id`. -/
def firstDigitRun : Str → Option Str
  | [] => none
  | c :: t => if c.isDigit then some (c :: t.takeWhile Char.isDigit) else firstDigitRun t

/-- Literal `"wf"`. -/
def wfS : Str := S "wf"

/-- Literal `"wp"`. -/
def wpS : Str := S "wp"

/-- Literal `"wind farm "`. -/
def windFarmS : Str := S "wind farm "

namespace DataAccess

/-- `DataAccess.normalize_wind_farm_id` (src/mcp/server.py:212-230).
`None` is returned for a falsy (empty) input; otherwise the input is
lower-cased and stripped, a leading `wf` is rewritten to `wp` (via
`str.replace`, hence on all occurrences), a `wind farm ` prefix is
rewritten by deleting every occurrence of `wind farm ` and prefixing
`wp`, an all-digit string is prefixed with `wp`, and any other string not
already starting with `wp` is prefixed with `wp`. -/
def normalize_wind_farm_id (wind_farm : Str) : Option Str :=
  if wind_farm.isEmpty then none
  else
    let farm_id := pyStrip (pyLower wind_farm)
    if pyStartsWith farm_id wfS then some (pyReplace farm_id wfS wpS)
    else if pyStartsWith farm_id windFarmS then
      some (wpS ++ pyReplace farm_id windFarmS [])
    else if pyIsDigit farm_id then some (wpS ++ farm_id)
    else if !pyStartsWith farm_id wpS then some (wpS ++ farm_id)
    else some farm_id

/-- `normalize_wind_farm_id` applied to a possibly-`None` Python value:
the function's `if not wind_farm: return None` guard absorbs `None`. -/
def normalize_wind_farm_idO : Option Str → Option Str
  | none => none
  | some s => normalize_wind_farm_id s

end DataAccess

namespace ParquetDataReader

/-- `ParquetDataReader._normalize_wind_farm_id`
(src/mcp/parquet_data_reader.py:558-572): lower-case and strip; rewrite a
leading `wf` to `wp` (again via `str.replace`); otherwise, if the string
does not start with `wp`, build `wp` + first digit run when one exists;
in all remaining cases return the string unchanged. -/
def normalize_wind_farm_id (wind_farm : Str) : Str :=
  let w := pyStrip (pyLower wind_farm)
  if pyStartsWith w wfS then pyReplace w wfS wpS
  else if !pyStartsWith w wpS then
    match firstDigitRun w with
    | some ds => wpS ++ ds
    | none => w
  else w

end ParquetDataReader

/-! Basic facts about the embedded string operations. -/

theorem toNat_ofNat_valid (n : Nat) (h : n.isValidChar) : (Char.ofNat n).toNat = n := by
  rw [Char.ofNat, dif_pos h]
  rfl

/-- ASCII lower-casing is idempotent. -/
theorem toLower_idem (c : Char) : c.toLower.toLower = c.toLower := by
  unfold Char.toLower
  by_cases h : c.toNat ≥ 65 ∧ c.toNat ≤ 90
  · rw [if_pos h]
    have hv : (c.toNat + 32).isValidChar := by
      left
      omega
    rw [toNat_ofNat_valid _ hv, if_neg (by omega)]
  · rw [if_neg h, if_neg h]

theorem map_toLower_fixed {l : Str} (h : ∀ c ∈ l, c.toLower = c) : pyLower l = l := by
  induction l with
  | nil => rfl
  | cons c t ih =>
    have := h c (by simp)
    simp only [pyLower, List.map_cons] at ih ⊢
    rw [this, ih]
    intro d hd
    exact h d (by simp [hd])

theorem toLower_fixed_of_mem_pyLower {s : Str} {c : Char} (h : c ∈ pyLower s) :
    c.toLower = c := by
  simp only [pyLower, List.mem_map] at h
  obtain ⟨d, _, rfl⟩ := h
  exact toLower_idem d

theorem isPrefixOf_eq_true_iff {p t : Str} : p.isPrefixOf t = true ↔ p <+: t := by
  induction p generalizing t with
  | nil => simp [List.isPrefixOf, List.nil_prefix]
  | cons a as ih =>
    cases t with
    | nil => simp [List.isPrefixOf]
    | cons b bs =>
      simp only [List.isPrefixOf, Bool.and_eq_true, beq_iff_eq, ih, List.cons_prefix_cons]

theorem pyStartsWith_cons_cons {a b : Char} {t : Str} :
    pyStartsWith t [a, b] = true ↔ ∃ r, t = a :: b :: r := by
  constructor
  · intro h
    rw [pyStartsWith, isPrefixOf_eq_true_iff] at h
    obtain ⟨r, rfl⟩ := h
    exact ⟨r, rfl⟩
  · rintro ⟨r, rfl⟩
    rw [pyStartsWith, isPrefixOf_eq_true_iff]
    exact ⟨r, rfl⟩

theorem pyStartsWith_ne_nil {t : Str} {c : Char} {p : Str}
    (h : pyStartsWith t (c :: p) = true) : t ≠ [] := by
  rintro rfl
  simp [pyStartsWith, List.isPrefixOf] at h

theorem head_dropWhile_false {p : Char → Bool} {l : Str} {c : Char}
    (h : (l.dropWhile p).head? = some c) : p c = false := by
  have := List.head?_dropWhile_not p l
  rw [h] at this
  exact this

theorem dropWhile_eq_self_of_head {p : Char → Bool} {l : Str}
    (h : ∀ c, l.head? = some c → p c = false) : l.dropWhile p = l := by
  cases l with
  | nil => rfl
  | cons c t =>
    rw [List.dropWhile_cons, if_neg]
    simp [h c rfl]

theorem getLast?_of_suffix {l₁ l₂ : Str} (h : l₁ <:+ l₂) (hne : l₁ ≠ []) :
    l₂.getLast? = l₁.getLast? := by
  obtain ⟨pre, rfl⟩ := h
  rw [List.getLast?_append]
  cases hl : l₁.getLast? with
  | none => exact absurd (List.getLast?_eq_none_iff.mp hl) hne
  | some c => rfl

theorem pyStrip_eq_self {s : Str}
    (h1 : ∀ c, s.head? = some c → isPySpace c = false)
    (h2 : ∀ c, s.getLast? = some c → isPySpace c = false) : pyStrip s = s := by
  rw [pyStrip, dropWhile_eq_self_of_head h1, dropWhile_eq_self_of_head, List.reverse_reverse]
  intro c hc
  rw [List.head?_reverse] at hc
  exact h2 c hc

theorem pyStrip_head {s : Str} {c : Char} (h : (pyStrip s).head? = some c) :
    isPySpace c = false := by
  rw [pyStrip, List.head?_reverse] at h
  rcases hd : (((s.dropWhile isPySpace).reverse).dropWhile isPySpace) with _ | ⟨a, t⟩
  · rw [hd] at h
    simp at h
  · have hsfx : (a :: t) <:+ (s.dropWhile isPySpace).reverse := by
      rw [← hd]
      exact List.dropWhile_suffix isPySpace
    have : ((s.dropWhile isPySpace).reverse).getLast? = some c := by
      rw [getLast?_of_suffix hsfx (by simp), ← hd, h]
    rw [List.getLast?_reverse] at this
    exact head_dropWhile_false this

theorem pyStrip_getLast {s : Str} {c : Char} (h : (pyStrip s).getLast? = some c) :
    isPySpace c = false := by
  rw [pyStrip, List.getLast?_reverse] at h
  exact head_dropWhile_false h

theorem pyStrip_idem (s : Str) : pyStrip (pyStrip s) = pyStrip s :=
  pyStrip_eq_self (fun _ => pyStrip_head) (fun _ => pyStrip_getLast)

theorem mem_pyStrip {s : Str} {c : Char} (h : c ∈ pyStrip s) : c ∈ s := by
  rw [pyStrip, List.mem_reverse] at h
  have h2 := (List.dropWhile_suffix (l := (s.dropWhile isPySpace).reverse) isPySpace).sublist.mem h
  rw [List.mem_reverse] at h2
  exact (List.dropWhile_suffix isPySpace).sublist.mem h2

theorem pyLower_pyStrip_pyLower (s : Str) :
    pyLower (pyStrip (pyLower s)) = pyStrip (pyLower s) := by
  apply map_toLower_fixed
  intro c hc
  exact toLower_fixed_of_mem_pyLower (mem_pyStrip hc)

/-! Facts about `pyReplaceAux`. -/

theorem pyReplaceAux_nil (pat repl : Str) (fuel : Nat) :
    pyReplaceAux pat repl fuel [] = [] := by
  cases fuel <;> rfl

theorem mem_pyReplaceAux {pat repl : Str} {fuel : Nat} {s : Str} {c : Char}
    (h : c ∈ pyReplaceAux pat repl fuel s) : c ∈ repl ∨ c ∈ s := by
  induction fuel generalizing s with
  | zero => exact Or.inr h
  | succ fuel ih =>
    cases s with
    | nil => simp [pyReplaceAux] at h
    | cons c0 t =>
      rw [pyReplaceAux] at h
      split at h
      · rcases List.mem_append.mp h with h1 | h2
        · exact Or.inl h1
        · rcases ih h2 with h3 | h4
          · exact Or.inl h3
          · exact Or.inr ((List.drop_suffix _ _).sublist.mem h4)
      · rcases List.mem_cons.mp h with h1 | h2
        · exact Or.inr (h1 ▸ List.mem_cons_self _ _)
        · rcases ih h2 with h3 | h4
          · exact Or.inl h3
          · exact Or.inr (List.mem_cons_of_mem _ h4)

theorem pyReplaceAux_ne_nil {pat repl : Str} {fuel : Nat} {s : Str}
    (hr : repl ≠ []) (hs : s ≠ []) : pyReplaceAux pat repl fuel s ≠ [] := by
  cases fuel with
  | zero => exact hs
  | succ fuel =>
    cases s with
    | nil => exact absurd rfl hs
    | cons c0 t =>
      rw [pyReplaceAux]
      split
      · simp [hr]
      · simp

theorem noTail_of_suffix {l₁ l₂ : Str} (h : l₁ <:+ l₂)
    (h2 : ∀ c, l₂.getLast? = some c → isPySpace c = false) :
    ∀ c, l₁.getLast? = some c → isPySpace c = false := by
  intro c hc
  apply h2
  rw [getLast?_of_suffix h, hc]
  intro hnil
  rw [hnil] at hc
  simp at hc

theorem pyReplaceAux_noTail {pat repl : Str} {fuel : Nat} {s : Str}
    (hrne : repl ≠ [])
    (hr : ∀ c, repl.getLast? = some c → isPySpace c = false)
    (hs : ∀ c, s.getLast? = some c → isPySpace c = false) :
    ∀ c, (pyReplaceAux pat repl fuel s).getLast? = some c → isPySpace c = false := by
  induction fuel generalizing s with
  | zero => exact hs
  | succ fuel ih =>
    intro c hc
    cases s with
    | nil => rw [pyReplaceAux] at hc; simp at hc
    | cons c0 t =>
      rw [pyReplaceAux] at hc
      split at hc
      · rw [List.getLast?_append] at hc
        rcases ho : (pyReplaceAux pat repl fuel ((c0 :: t).drop pat.length)).getLast? with _ | d
        · rw [ho, Option.none_or] at hc
          exact hr c hc
        · rw [ho] at hc
          obtain rfl : d = c := by simpa using hc
          exact ih (noTail_of_suffix (List.drop_suffix _ _) hs) d ho
      · have hcons : (c0 :: pyReplaceAux pat repl fuel t) = [c0] ++ pyReplaceAux pat repl fuel t := rfl
        rw [hcons, List.getLast?_append] at hc
        rcases ho : (pyReplaceAux pat repl fuel t).getLast? with _ | d
        · rw [ho, Option.none_or] at hc
          obtain rfl : c0 = c := by simpa using hc
          have ht : t = [] := by
            by_contra htne
            exact pyReplaceAux_ne_nil hrne htne (List.getLast?_eq_none_iff.mp ho)
          subst ht
          exact hs c0 rfl
        · rw [ho] at hc
          obtain rfl : d = c := by simpa using hc
          exact ih (noTail_of_suffix ⟨[c0], rfl⟩ hs) d ho

theorem pyReplaceAux_empty_repl_getLast {pat : Str} {fuel : Nat} {s : Str}
    (hpl : ∀ c, pat.getLast? = some c → isPySpace c = true)
    (hs : ∀ c, s.getLast? = some c → isPySpace c = false)
    (hsne : s ≠ []) :
    pyReplaceAux pat [] fuel s ≠ [] ∧
      (pyReplaceAux pat [] fuel s).getLast? = s.getLast? := by
  induction fuel generalizing s with
  | zero => exact ⟨hsne, rfl⟩
  | succ fuel ih =>
    cases s with
    | nil => exact absurd rfl hsne
    | cons c0 t =>
      rw [pyReplaceAux]
      split
      · next hmatch =>
        have hpre : pat <+: (c0 :: t) := isPrefixOf_eq_true_iff.mp hmatch.2
        rcases hd : (c0 :: t).drop pat.length with _ | ⟨a, r⟩
        · exfalso
          have hlen : (c0 :: t).length ≤ pat.length := by
            have := List.drop_eq_nil_iff.mp hd
            omega
          have heq : pat = c0 :: t := hpre.eq_of_length_le hlen
          obtain ⟨c, hc⟩ := Option.isSome_iff_exists.mp (List.getLast?_isSome.mpr (by simp : (c0 :: t) ≠ []))
          have h1 := hpl c (heq ▸ hc)
          have h2 := hs c hc
          rw [h1] at h2
          exact absurd h2 (by simp)
        · have hsfx : (a :: r) <:+ (c0 :: t) := hd ▸ List.drop_suffix _ _
          have hIH := ih (noTail_of_suffix hsfx hs) (by simp)
          rw [List.nil_append]
          refine ⟨hIH.1, ?_⟩
          rw [hIH.2, ← getLast?_of_suffix hsfx (by simp)]
      · by_cases htn : t = []
        · subst htn
          simp [pyReplaceAux_nil]
        · have hIH := ih (noTail_of_suffix ⟨[c0], rfl⟩ hs) htn
          have hcons : (c0 :: pyReplaceAux pat [] fuel t) = [c0] ++ pyReplaceAux pat [] fuel t := rfl
          constructor
          · simp
          · rw [hcons, List.getLast?_append, hIH.2]
            obtain ⟨c, hc⟩ := Option.isSome_iff_exists.mp (List.getLast?_isSome.mpr htn)
            rw [hc]
            have hcons2 : (c0 :: t) = [c0] ++ t := rfl
            rw [hcons2, List.getLast?_append, hc]

theorem isDigit_toNat {c : Char} (h : c.isDigit = true) : 48 ≤ c.toNat ∧ c.toNat ≤ 57 := by
  simp only [Char.isDigit, Bool.and_eq_true, decide_eq_true_eq] at h
  exact h

theorem digit_toLower {c : Char} (h : c.isDigit = true) : c.toLower = c := by
  have hb := isDigit_toNat h
  unfold Char.toLower
  rw [if_neg]
  omega

theorem digit_not_space {c : Char} (h : c.isDigit = true) : isPySpace c = false := by
  have hb := isDigit_toNat h
  by_contra h2
  have h3 : isPySpace c = true := by
    revert h2
    cases isPySpace c <;> simp
  simp only [isPySpace, Bool.or_eq_true, decide_eq_true_eq] at h3
  rcases h3 with ((((h3 | h3) | h3) | h3) | h3) | h3 <;> subst h3 <;> simp at hb

/-- Shape, lower-fixedness and strip-fixedness of a string of the form
`"wp" ++ u` whose tail `u` has lower-fixed characters and no trailing
whitespace. -/
theorem wp_append_spec {u : Str}
    (hchar : ∀ c ∈ u, c.toLower = c)
    (htail : ∀ c, u.getLast? = some c → isPySpace c = false) :
    (∃ r, wpS ++ u = 'w' :: 'p' :: r) ∧ pyLower (wpS ++ u) = wpS ++ u ∧
      pyStrip (wpS ++ u) = wpS ++ u := by
  have hfix := map_toLower_fixed hchar
  simp only [pyLower] at hfix
  have hwp : wpS ++ u = 'w' :: 'p' :: u := rfl
  rw [hwp]
  refine ⟨⟨u, rfl⟩, ?_, ?_⟩
  · show List.map Char.toLower ('w' :: 'p' :: u) = 'w' :: 'p' :: u
    rw [List.map_cons, List.map_cons, hfix]
    rfl
  · apply pyStrip_eq_self
    · intro c hc
      obtain rfl : c = 'w' := by simpa using hc.symm
      decide
    · intro c hc
      have hc2 : (['w', 'p'] ++ u).getLast? = some c := hc
      rw [List.getLast?_append] at hc2
      rcases hu : u.getLast? with _ | d
      · rw [hu, Option.none_or] at hc2
        obtain rfl : c = 'p' := by simpa using hc2.symm
        decide
      · rw [hu] at hc2
        obtain rfl : d = c := by simpa using hc2
        exact htail d hu

theorem pyReplaceAux_step_wf (n : Nat) (r : Str) :
    pyReplaceAux wfS wpS (n + 1) ('w' :: 'f' :: r) = wpS ++ pyReplaceAux wfS wpS n r := by
  rw [pyReplaceAux, if_pos ⟨by simp [wfS, S], by simp [wfS, S, List.isPrefixOf]⟩]
  rfl

/-- Every string returned by `DataAccess.normalize_wind_farm_id` starts
with `wp`, is fixed by lower-casing, and is fixed by stripping. -/
theorem normalize_out_spec {s o : Str}
    (h : DataAccess.normalize_wind_farm_id s = some o) :
    (∃ r, o = 'w' :: 'p' :: r) ∧ pyLower o = o ∧ pyStrip o = o := by
  have hcharfix : ∀ c ∈ pyStrip (pyLower s), c.toLower = c :=
    fun c hc => toLower_fixed_of_mem_pyLower (mem_pyStrip hc)
  have htail0 : ∀ c, (pyStrip (pyLower s)).getLast? = some c → isPySpace c = false :=
    fun _ => pyStrip_getLast
  have hstrip0 : pyStrip (pyStrip (pyLower s)) = pyStrip (pyLower s) := pyStrip_idem _
  simp only [DataAccess.normalize_wind_farm_id] at h
  split at h
  · exact absurd h (by simp)
  split at h
  · -- branch 1: farm_id starts with "wf"
    next h1 =>
    obtain rfl : pyReplace (pyStrip (pyLower s)) wfS wpS = o := by injection h
    obtain ⟨r, ht⟩ := pyStartsWith_cons_cons.mp (h1 : pyStartsWith _ ['w', 'f'] = true)
    rw [ht]
    have hcomp : pyReplace ('w' :: 'f' :: r) wfS wpS =
        wpS ++ pyReplaceAux wfS wpS (r.length + 1) r := pyReplaceAux_step_wf _ _
    rw [hcomp]
    apply wp_append_spec
    · intro c hc
      rcases mem_pyReplaceAux hc with h2 | h2
      · have h2' : c = 'w' ∨ c = 'p' := by simpa [wpS, S] using h2
        rcases h2' with rfl | rfl <;> decide
      · exact hcharfix c (by rw [ht]; exact List.mem_cons_of_mem _ (List.mem_cons_of_mem _ h2))
    · apply pyReplaceAux_noTail (by simp [wpS, S])
      · intro c hc
        obtain rfl : c = 'p' := by simpa [wpS, S] using hc.symm
        decide
      · intro c hc
        apply htail0
        rw [getLast?_of_suffix (show r <:+ pyStrip (pyLower s) from ⟨['w', 'f'], ht.symm⟩), hc]
        intro hr
        rw [hr] at hc
        simp at hc
  split at h
  · -- branch 2: farm_id starts with "wind farm "
    next h1 h2 =>
    obtain rfl : wpS ++ pyReplace (pyStrip (pyLower s)) windFarmS [] = o := by injection h
    have htne : pyStrip (pyLower s) ≠ [] :=
      pyStartsWith_ne_nil (h2 : pyStartsWith _ ('w' :: S "ind farm ") = true)
    have hR := @pyReplaceAux_empty_repl_getLast windFarmS (pyStrip (pyLower s)).length
      (pyStrip (pyLower s))
      (fun c hc => by
        obtain rfl : c = ' ' := by simpa [windFarmS, S] using hc.symm
        decide)
      htail0 htne
    apply wp_append_spec
    · intro c hc
      rcases mem_pyReplaceAux hc with h3 | h3
      · simp at h3
      · exact hcharfix c h3
    · intro c hc
      apply htail0
      rw [← hR.2]
      exact hc
  split at h
  · -- branch 3: farm_id is all digits
    obtain rfl : wpS ++ pyStrip (pyLower s) = o := by injection h
    exact wp_append_spec hcharfix htail0
  split at h
  · -- branch 4: farm_id does not start with "wp"
    obtain rfl : wpS ++ pyStrip (pyLower s) = o := by injection h
    exact wp_append_spec hcharfix htail0
  · -- branch 5: farm_id already starts with "wp"
    next h1 h2 h3 h4 =>
    obtain rfl : pyStrip (pyLower s) = o := by injection h
    have h5 : pyStartsWith (pyStrip (pyLower s)) wpS = true := by
      revert h4
      cases pyStartsWith (pyStrip (pyLower s)) wpS <;> simp
    obtain ⟨r, ht⟩ := pyStartsWith_cons_cons.mp (h5 : pyStartsWith _ ['w', 'p'] = true)
    exact ⟨⟨r, ht⟩, map_toLower_fixed hcharfix, hstrip0⟩

theorem wp_shape_not_wf (r : Str) : pyStartsWith ('w' :: 'p' :: r) wfS = false := by
  simp [pyStartsWith, wfS, S, List.isPrefixOf]

theorem wp_shape_not_windFarm (r : Str) : pyStartsWith ('w' :: 'p' :: r) windFarmS = false := by
  simp [pyStartsWith, windFarmS, S, List.isPrefixOf]

theorem wp_shape_not_digit (r : Str) : pyIsDigit ('w' :: 'p' :: r) = false := by
  simp [pyIsDigit, List.all_cons]

theorem wp_shape_wp (r : Str) : pyStartsWith ('w' :: 'p' :: r) wpS = true := by
  simp [pyStartsWith, wpS, S, List.isPrefixOf]

theorem DataAccess_normalize_idem (s : Str) :
    DataAccess.normalize_wind_farm_idO (DataAccess.normalize_wind_farm_id s) =
      DataAccess.normalize_wind_farm_id s := by
  cases h : DataAccess.normalize_wind_farm_id s with
  | none => rfl
  | some o =>
    obtain ⟨⟨r, rfl⟩, hlow, hstrip⟩ := normalize_out_spec h
    show DataAccess.normalize_wind_farm_id ('w' :: 'p' :: r) = some ('w' :: 'p' :: r)
    simp only [DataAccess.normalize_wind_farm_id, hlow, hstrip, List.isEmpty_cons,
      wp_shape_not_wf, wp_shape_not_windFarm, wp_shape_not_digit, wp_shape_wp]
    rfl

theorem firstDigitRun_spec {w ds : Str} (h : firstDigitRun w = some ds) :
    ds ≠ [] ∧ ∀ c ∈ ds, c.isDigit = true := by
  induction w with
  | nil => simp [firstDigitRun] at h
  | cons c t ih =>
    rw [firstDigitRun] at h
    split at h
    · next hc =>
      obtain rfl : c :: t.takeWhile Char.isDigit = ds := by injection h
      refine ⟨by simp, ?_⟩
      intro d hd
      rcases List.mem_cons.mp hd with rfl | hd2
      · exact hc
      · exact List.mem_takeWhile_imp hd2
    · exact ih h

theorem Parquet_normalize_idem (s : Str) :
    ParquetDataReader.normalize_wind_farm_id (ParquetDataReader.normalize_wind_farm_id s) =
      ParquetDataReader.normalize_wind_farm_id s := by
  have hcharfix : ∀ c ∈ pyStrip (pyLower s), c.toLower = c :=
    fun c hc => toLower_fixed_of_mem_pyLower (mem_pyStrip hc)
  have htail0 : ∀ c, (pyStrip (pyLower s)).getLast? = some c → isPySpace c = false :=
    fun _ => pyStrip_getLast
  have hstrip0 : pyStrip (pyStrip (pyLower s)) = pyStrip (pyLower s) := pyStrip_idem _
  have hlowt : pyLower (pyStrip (pyLower s)) = pyStrip (pyLower s) := map_toLower_fixed hcharfix
  have hfix : ∀ x : Str, (∃ r, x = 'w' :: 'p' :: r) → pyLower x = x → pyStrip x = x →
      ParquetDataReader.normalize_wind_farm_id x = x := by
    rintro x ⟨r, rfl⟩ hlow hstrip
    simp only [ParquetDataReader.normalize_wind_farm_id, hlow, hstrip, wp_shape_not_wf,
      wp_shape_wp, Bool.not_true, Bool.false_eq_true, if_false]
  by_cases h1 : pyStartsWith (pyStrip (pyLower s)) wfS = true
  · have ho : ParquetDataReader.normalize_wind_farm_id s =
        pyReplace (pyStrip (pyLower s)) wfS wpS := by
      simp only [ParquetDataReader.normalize_wind_farm_id, if_pos h1]
    rw [ho]
    obtain ⟨r, ht⟩ := pyStartsWith_cons_cons.mp h1
    rw [ht]
    have hcomp : pyReplace ('w' :: 'f' :: r) wfS wpS =
        wpS ++ pyReplaceAux wfS wpS (r.length + 1) r := pyReplaceAux_step_wf _ _
    rw [hcomp]
    have hchar1 : ∀ c ∈ pyReplaceAux wfS wpS (r.length + 1) r, c.toLower = c := by
      intro c hc
      rcases mem_pyReplaceAux hc with h2 | h2
      · have h2' : c = 'w' ∨ c = 'p' := by simpa [wpS, S] using h2
        rcases h2' with rfl | rfl <;> decide
      · exact hcharfix c (by rw [ht]; exact List.mem_cons_of_mem _ (List.mem_cons_of_mem _ h2))
    obtain ⟨hshape, hlw, hst⟩ := wp_append_spec hchar1
      (by
        apply pyReplaceAux_noTail (by simp [wpS, S])
        · intro c hc
          obtain rfl : c = 'p' := by simpa [wpS, S] using hc.symm
          decide
        · intro c hc
          apply htail0
          rw [getLast?_of_suffix (show r <:+ pyStrip (pyLower s) from ⟨['w', 'f'], ht.symm⟩), hc]
          intro hr
          rw [hr] at hc
          simp at hc)
    exact hfix _ hshape hlw hst
  · have h1f : pyStartsWith (pyStrip (pyLower s)) wfS = false := by
      revert h1
      cases pyStartsWith (pyStrip (pyLower s)) wfS <;> simp
    by_cases h2 : pyStartsWith (pyStrip (pyLower s)) wpS = true
    · have ho : ParquetDataReader.normalize_wind_farm_id s = pyStrip (pyLower s) := by
        simp only [ParquetDataReader.normalize_wind_farm_id, h1f, h2, Bool.not_true,
          Bool.false_eq_true, if_false]
      rw [ho]
      simp only [ParquetDataReader.normalize_wind_farm_id, hlowt, hstrip0, h1f, h2,
        Bool.not_true, Bool.false_eq_true, if_false]
    · have h2f : pyStartsWith (pyStrip (pyLower s)) wpS = false := by
        revert h2
        cases pyStartsWith (pyStrip (pyLower s)) wpS <;> simp
      cases hd : firstDigitRun (pyStrip (pyLower s)) with
      | some ds =>
        have hds := firstDigitRun_spec hd
        have ho : ParquetDataReader.normalize_wind_farm_id s = wpS ++ ds := by
          simp only [ParquetDataReader.normalize_wind_farm_id, h1f, h2f, Bool.not_false,
            if_true, hd, Bool.false_eq_true, if_false]
        rw [ho]
        obtain ⟨hshape, hlw, hst⟩ := wp_append_spec
          (fun c hc => digit_toLower (hds.2 c hc))
          (fun c hc => digit_not_space (hds.2 c (List.mem_of_getLast?_eq_some hc)))
        exact hfix _ hshape hlw hst
      | none =>
        have ho : ParquetDataReader.normalize_wind_farm_id s = pyStrip (pyLower s) := by
          simp only [ParquetDataReader.normalize_wind_farm_id, h1f, h2f, Bool.not_false,
            if_true, hd, Bool.false_eq_true, if_false]
        rw [ho]
        simp only [ParquetDataReader.normalize_wind_farm_id, hlowt, hstrip0, h1f, h2f,
          Bool.not_false, if_true, hd, Bool.false_eq_true, if_false]

theorem DataAccess_normalize_fixed {x : Str} (hsh : ∃ r, x = 'w' :: 'p' :: r)
    (hlow : pyLower x = x) (hstrip : pyStrip x = x) :
    DataAccess.normalize_wind_farm_id x = some x := by
  obtain ⟨r, rfl⟩ := hsh
  simp only [DataAccess.normalize_wind_farm_id, hlow, hstrip, List.isEmpty_cons,
    wp_shape_not_wf, wp_shape_not_windFarm, wp_shape_not_digit, wp_shape_wp]
  rfl

theorem Parquet_normalize_fixed {x : Str} (hsh : ∃ r, x = 'w' :: 'p' :: r)
    (hlow : pyLower x = x) (hstrip : pyStrip x = x) :
    ParquetDataReader.normalize_wind_farm_id x = x := by
  obtain ⟨r, rfl⟩ := hsh
  simp only [ParquetDataReader.normalize_wind_farm_id, hlow, hstrip, wp_shape_not_wf,
    wp_shape_wp, Bool.not_true, Bool.false_eq_true, if_false]

/-- C4: the wind-farm identifier normalizers (`DataAccess.normalize_wind_farm_id`
and `ParquetDataReader._normalize_wind_farm_id`) are idempotent, return an
already-canonical `wp<digits>` identifier unchanged, and map all supported
surface forms of the same farm to the same canonical string, with
`normalize "WF2" = "wp2"` and `normalize "wind farm 5" = "wp5"`. -/
theorem C4_normalizer_idempotent_and_convergent :
    (∀ s : Str, DataAccess.normalize_wind_farm_idO (DataAccess.normalize_wind_farm_id s) =
        DataAccess.normalize_wind_farm_id s) ∧
    (∀ s : Str, ParquetDataReader.normalize_wind_farm_id
        (ParquetDataReader.normalize_wind_farm_id s) =
        ParquetDataReader.normalize_wind_farm_id s) ∧
    (∀ ds : Str, ds ≠ [] → (∀ c ∈ ds, c.isDigit = true) →
        DataAccess.normalize_wind_farm_id (wpS ++ ds) = some (wpS ++ ds) ∧
        ParquetDataReader.normalize_wind_farm_id (wpS ++ ds) = wpS ++ ds) ∧
    ((DataAccess.normalize_wind_farm_id (S "WF3") = some (S "wp3") ∧
      DataAccess.normalize_wind_farm_id (S "wf3") = some (S "wp3") ∧
      DataAccess.normalize_wind_farm_id (S "3") = some (S "wp3") ∧
      DataAccess.normalize_wind_farm_id (S "wind farm 3") = some (S "wp3") ∧
      DataAccess.normalize_wind_farm_id (S "WF2") = some (S "wp2") ∧
      DataAccess.normalize_wind_farm_id (S "wind farm 5") = some (S "wp5")) ∧
     (ParquetDataReader.normalize_wind_farm_id (S "WF3") = S "wp3" ∧
      ParquetDataReader.normalize_wind_farm_id (S "wf3") = S "wp3" ∧
      ParquetDataReader.normalize_wind_farm_id (S "3") = S "wp3" ∧
      ParquetDataReader.normalize_wind_farm_id (S "wind farm 3") = S "wp3" ∧
      ParquetDataReader.normalize_wind_farm_id (S "WF2") = S "wp2" ∧
      ParquetDataReader.normalize_wind_farm_id (S "wind farm 5") = S "wp5")) := by
  refine ⟨DataAccess_normalize_idem, Parquet_normalize_idem, ?_, by decide⟩
  intro ds hne hdig
  have hspec := wp_append_spec (fun c hc => digit_toLower (hdig c hc))
    (fun c hc => digit_not_space (hdig c (List.mem_of_getLast?_eq_some hc)))
  exact ⟨DataAccess_normalize_fixed hspec.1 hspec.2.1 hspec.2.2,
    Parquet_normalize_fixed hspec.1 hspec.2.1 hspec.2.2⟩

/-- Witness for C4 at concrete inputs. -/
theorem C4_normalizer_witness :
    DataAccess.normalize_wind_farm_idO (DataAccess.normalize_wind_farm_id (S "WF3")) =
      DataAccess.normalize_wind_farm_id (S "WF3") ∧
    DataAccess.normalize_wind_farm_id (wpS ++ ['3']) = some (wpS ++ ['3']) :=
  ⟨C4_normalizer_idempotent_and_convergent.1 (S "WF3"),
   (C4_normalizer_idempotent_and_convergent.2.2.1 ['3'] (by decide) (by decide)).1⟩

theorem toLower_not_digit {d : Char} (h : d.isDigit = false) : d.toLower.isDigit = false := by
  by_cases hc : 65 ≤ d.toNat ∧ d.toNat ≤ 90
  · unfold Char.toLower
    rw [if_pos hc]
    by_contra h2
    have h3 : (Char.ofNat (d.toNat + 32)).isDigit = true := by
      revert h2
      cases (Char.ofNat (d.toNat + 32)).isDigit <;> simp
    have h4 := isDigit_toNat h3
    rw [toNat_ofNat_valid _ (by left; omega)] at h4
    omega
  · unfold Char.toLower
    rw [if_neg hc]
    exact h

theorem firstDigitRun_eq_none {w : Str} (h : ∀ c ∈ w, c.isDigit = false) :
    firstDigitRun w = none := by
  induction w with
  | nil => rfl
  | cons c t ih =>
    rw [firstDigitRun, if_neg]
    · exact ih (fun d hd => h d (List.mem_cons_of_mem _ hd))
    · rw [h c (List.mem_cons_self _ _)]
      simp

theorem pyIsDigit_eq_false_of_no_digit {w : Str} (h : ∀ c ∈ w, c.isDigit = false) :
    pyIsDigit w = false := by
  cases w with
  | nil => rfl
  | cons c t =>
    rw [pyIsDigit, List.all_cons, h c (List.mem_cons_self _ _)]
    simp

/-- C5 counterexample: `"abc"` contains no digits and (after lower-casing
and trimming) starts with neither `wf` nor `wp`, yet
`DataAccess.normalize_wind_farm_id` returns `"wpabc"`, not the input
unchanged. -/
theorem C5_counterexample :
    (∀ c ∈ S "abc", c.isDigit = false) ∧
    pyStartsWith (pyStrip (pyLower (S "abc"))) wfS = false ∧
    pyStartsWith (pyStrip (pyLower (S "abc"))) wpS = false ∧
    DataAccess.normalize_wind_farm_id (S "abc") = some (S "wpabc") ∧
    DataAccess.normalize_wind_farm_id (S "abc") ≠ some (S "abc") := by decide

/-- C5 amended: for an input with no digits that (after lower-casing and
trimming) starts with neither `wf` nor `wp`, the
`ParquetDataReader._normalize_wind_farm_id` normalizer returns the input
unchanged apart from lower-casing and trimming (no rejection, no error);
`DataAccess.normalize_wind_farm_id` instead prefixes `wp` to the
lower-cased, trimmed input (shown here for non-empty inputs that also do
not start with the `wind farm ` phrase; the empty input maps to `None`). -/
theorem C5_amended_no_digit_no_recognized_prefixes (s : Str)
    (hnd : ∀ c ∈ s, c.isDigit = false)
    (h1 : pyStartsWith (pyStrip (pyLower s)) wfS = false)
    (h2 : pyStartsWith (pyStrip (pyLower s)) wpS = false) :
    ParquetDataReader.normalize_wind_farm_id s = pyStrip (pyLower s) ∧
    (s ≠ [] → pyStartsWith (pyStrip (pyLower s)) windFarmS = false →
      DataAccess.normalize_wind_farm_id s = some (wpS ++ pyStrip (pyLower s))) := by
  have hnd' : ∀ c ∈ pyStrip (pyLower s), c.isDigit = false := by
    intro c hc
    have hm : c ∈ pyLower s := mem_pyStrip hc
    simp only [pyLower, List.mem_map] at hm
    obtain ⟨d, hd, rfl⟩ := hm
    exact toLower_not_digit (hnd d hd)
  constructor
  · simp only [ParquetDataReader.normalize_wind_farm_id, h1, h2, Bool.not_false, if_true,
      Bool.false_eq_true, if_false, firstDigitRun_eq_none hnd']
  · intro hne hwf2
    have hie : s.isEmpty = false := by
      cases s with
      | nil => exact absurd rfl hne
      | cons a t => rfl
    simp only [DataAccess.normalize_wind_farm_id, hie, h1, hwf2,
      pyIsDigit_eq_false_of_no_digit hnd', h2, Bool.not_false, if_true,
      Bool.false_eq_true, if_false]

/-- Witness for C5's amended theorem at the concrete input `"abc"`. -/
theorem C5_amended_witness :
    ParquetDataReader.normalize_wind_farm_id (S "abc") = pyStrip (pyLower (S "abc")) ∧
    DataAccess.normalize_wind_farm_id (S "abc") = some (wpS ++ pyStrip (pyLower (S "abc"))) :=
  ⟨(C5_amended_no_digit_no_recognized_prefixes (S "abc") (by decide) (by decide) (by decide)).1,
   (C5_amended_no_digit_no_recognized_prefixes (S "abc") (by decide) (by decide)
      (by decide)).2 (by decide) (by decide)⟩

namespace QueryRouter

/-- `QueryRouter.intent_patterns` (src/mcp/server.py:520-556): intent name
mapped to its keyword list, in the Python dict's insertion order. -/
def intent_patterns : List (Str × List Str) :=
  [ (S "performance",
      [S "rmse", S "mae", S "accuracy", S "performance", S "error", S "forecast quality",
       S "baseline", S "model comparison", S "best model", S "worst model"]),
    (S "power_curve",
      [S "power curve", S "capacity factor", S "cut-in", S "rated speed", S "wind speed",
       S "turbine", S "power output", S "cut-out", S "rated power"]),
    (S "temporal",
      [S "hourly", S "daily", S "seasonal", S "pattern", S "trend", S "diurnal", S "ramp",
       S "time", S "temporal", S "autocorrelation", S "lag"]),
    (S "business",
      [S "co2", S "carbon", S "economic", S "value", S "savings", S "cost", S "environmental",
       S "sustainability", S "grid", S "penetration", S "revenue"]),
    (S "uncertainty",
      [S "confidence", S "interval", S "uncertainty", S "risk", S "reliability", S "bounds",
       S "prediction interval", S "quantile"]),
    (S "error_analysis",
      [S "bias", S "overpredict", S "underpredict", S "error pattern", S "residual",
       S "systematic", S "diagnostic"]),
    (S "comparison",
      [S "compare", S "versus", S "better", S "which model", S "trade-off", S "best", S "worst",
       S "rank", S "ranking"]),
    (S "data_quality",
      [S "missing", S "outlier", S "quality", S "completeness", S "validation", S "clean"]),
    (S "feature_analysis",
      [S "feature importance", S "important features", S "feature ranking",
       S "variable importance", S "shap", S "permutation importance"]) ]

/-- `QueryRouter.classify_query` (src/mcp/server.py:697-710): an intent is
detected when any of its keywords is a substring of the lower-cased query;
with no detected intent the result is `["general"]`. -/
def classify_query (query : Str) : List Str :=
  let query_lower := pyLower query
  let detected_intents :=
    (intent_patterns.filter (fun p => p.2.any (fun kw => pyContains query_lower kw))).map
      (fun p => p.1)
  if detected_intents.isEmpty then [S "general"] else detected_intents

end QueryRouter

theorem pyContains_nil_pat (s : Str) : pyContains s [] = true := by
  cases s <;> simp [pyContains, List.isPrefixOf]

theorem pyContains_append_right {s p : Str} (h : pyContains s p = true) (t : Str) :
    pyContains (s ++ t) p = true := by
  induction s with
  | nil =>
    have hp : p = [] := by simpa [pyContains] using h
    subst hp
    exact pyContains_nil_pat t
  | cons c s' ih =>
    rw [pyContains] at h
    rcases Bool.or_eq_true_iff.mp h with h1 | h2
    · rw [List.cons_append, pyContains, Bool.or_eq_true_iff]
      left
      rw [isPrefixOf_eq_true_iff] at h1 ⊢
      exact h1.trans (List.prefix_append _ _)
    · rw [List.cons_append, pyContains, Bool.or_eq_true_iff]
      right
      exact ih h2

theorem pyContains_suffix (a k : Str) : pyContains (a ++ k) k = true := by
  induction a with
  | nil =>
    cases k with
    | nil => rfl
    | cons c t =>
      rw [List.nil_append, pyContains, Bool.or_eq_true_iff]
      left
      rw [isPrefixOf_eq_true_iff]
  | cons c a' ih =>
    rw [List.cons_append, pyContains, Bool.or_eq_true_iff]
    right
    exact ih

theorem intent_keywords_lower :
    ∀ p ∈ QueryRouter.intent_patterns, ∀ kw ∈ p.2, pyLower kw = kw := by decide

/-- C7: the query classifier returns a non-empty intent list for every
input, and exactly `["general"]` when no intent keyword occurs as a
substring of the lower-cased query. -/
theorem C7_classify_nonempty_general (q : Str) :
    QueryRouter.classify_query q ≠ [] ∧
    ((∀ p ∈ QueryRouter.intent_patterns, ∀ kw ∈ p.2,
        pyContains (pyLower q) kw = false) →
      QueryRouter.classify_query q = [S "general"]) := by
  constructor
  · rw [QueryRouter.classify_query]
    split
    · simp
    · next hne =>
      intro hc
      rw [hc] at hne
      simp at hne
  · intro hnone
    rw [QueryRouter.classify_query]
    have hfil : QueryRouter.intent_patterns.filter
        (fun p => p.2.any (fun kw => pyContains (pyLower q) kw)) = [] := by
      rw [List.filter_eq_nil_iff]
      intro p hp
      simp only [List.any_eq_true, not_exists, not_and]
      intro kw hkw
      rw [hnone p hp kw hkw]
      simp
    rw [hfil]
    rfl

/-- Witness for C7 at a query matching no keyword. -/
theorem C7_classify_witness :
    QueryRouter.classify_query (S "zzz") ≠ [] ∧
    QueryRouter.classify_query (S "zzz") = [S "general"] :=
  ⟨(C7_classify_nonempty_general (S "zzz")).1,
   (C7_classify_nonempty_general (S "zzz")).2 (by decide)⟩

/-- C8 counterexample: appending the `performance` keyword `"rmse"` to the
query `"zzz"` removes `"general"` from the classification, so "adding a
keyword never removes an already-contained intent" fails as stated for
the fallback label. -/
theorem C8_counterexample :
    (S "rmse") ∈ (QueryRouter.intent_patterns.head!).2 ∧
    QueryRouter.classify_query (S "zzz") = [S "general"] ∧
    QueryRouter.classify_query (S "zzz" ++ S "rmse") = [S "performance"] ∧
    ¬(S "general") ∈ QueryRouter.classify_query (S "zzz" ++ S "rmse") := by decide

/-- C8 amended: appending one of intent `i`'s keywords to any query makes
the classification contain `i`, and every intent other than the fallback
label `"general"` contained in the original classification is still
contained in the extended classification. -/
theorem C8_amended_monotonic (q i : Str) (kws : List Str) (k : Str)
    (hik : (i, kws) ∈ QueryRouter.intent_patterns) (hk : k ∈ kws) :
    i ∈ QueryRouter.classify_query (q ++ k) ∧
    ∀ j ∈ QueryRouter.classify_query q, j ≠ S "general" →
      j ∈ QueryRouter.classify_query (q ++ k) := by
  have hklow : pyLower k = k := intent_keywords_lower _ hik k hk
  have hklow' : List.map Char.toLower k = k := hklow
  have hql : pyLower (q ++ k) = pyLower q ++ k := by
    simp only [pyLower, List.map_append, hklow']
  have hmono : ∀ p ∈ QueryRouter.intent_patterns,
      (p.2.any (fun kw => pyContains (pyLower q) kw)) = true →
      (p.2.any (fun kw => pyContains (pyLower (q ++ k)) kw)) = true := by
    intro p _ hp
    rw [List.any_eq_true] at hp ⊢
    obtain ⟨kw, hkw, hcon⟩ := hp
    exact ⟨kw, hkw, by rw [hql]; exact pyContains_append_right hcon k⟩
  have hmem : i ∈ (QueryRouter.intent_patterns.filter
      (fun p => p.2.any (fun kw => pyContains (pyLower (q ++ k)) kw))).map
      (fun p => p.1) := by
    rw [List.mem_map]
    refine ⟨(i, kws), ?_, rfl⟩
    rw [List.mem_filter]
    refine ⟨hik, ?_⟩
    rw [List.any_eq_true]
    exact ⟨k, hk, by rw [hql]; exact pyContains_suffix (pyLower q) k⟩
  have hclassify_ext : QueryRouter.classify_query (q ++ k) =
      (QueryRouter.intent_patterns.filter
        (fun p => p.2.any (fun kw => pyContains (pyLower (q ++ k)) kw))).map
        (fun p => p.1) := by
    rw [QueryRouter.classify_query, if_neg]
    intro he
    rw [List.isEmpty_iff] at he
    rw [he] at hmem
    simp at hmem
  constructor
  · rw [hclassify_ext]
    exact hmem
  · intro j hj hjg
    rw [QueryRouter.classify_query] at hj
    split at hj
    · next he =>
      exact absurd (by simpa using hj) hjg
    · rw [List.mem_map] at hj
      obtain ⟨p, hpf, rfl⟩ := hj
      rw [List.mem_filter] at hpf
      rw [hclassify_ext, List.mem_map]
      refine ⟨p, ?_, rfl⟩
      rw [List.mem_filter]
      exact ⟨hpf.1, hmono p hpf.1 hpf.2⟩

/-- Witness for C8's amended theorem at concrete inputs. -/
theorem C8_amended_witness :
    (S "performance") ∈ QueryRouter.classify_query (S "zzz" ++ S "rmse") ∧
    ∀ j ∈ QueryRouter.classify_query (S "zzz"), j ≠ S "general" →
      j ∈ QueryRouter.classify_query (S "zzz" ++ S "rmse") :=
  C8_amended_monotonic (S "zzz") (S "performance") (QueryRouter.intent_patterns.head!).2
    (S "rmse") (by decide) (by decide)

namespace QueryRouter

/-- Character class `[1-7]` of the wind-farm regex. -/
def isFarmDigit (c : Char) : Bool := '1' ≤ c && c ≤ '7'

/-- Match of the second alternative `wind farm [1-7]` of the farm regex at
the current position, returning the matched text and the remainder. -/
def windFarmAltAt (s : Str) : Option (Str × Str) :=
  if windFarmS.isPrefixOf s then
    match s.drop 10 with
    | d :: rest => if isFarmDigit d then some (windFarmS ++ [d], rest) else none
    | [] => none
  else none

/-- Match of the regex `w[fp][1-7]|wind farm [1-7]` at the current
position; like Python `re`, the left alternative is tried first. -/
def farmMatchAt (s : Str) : Option (Str × Str) :=
  match s with
  | 'w' :: c2 :: c3 :: rest =>
    if (c2 = 'f' || c2 = 'p') && isFarmDigit c3 then some (['w', c2, c3], rest)
    else windFarmAltAt s
  | _ => windFarmAltAt s

/-- `re.findall` scan for the farm regex: try a match at each position,
emit it and continue after its end, else advance one character.  `fuel`
bounds scan steps (the length of the scanned string always suffices). -/
def findFarmsAux : Nat → Str → List Str
  | 0, _ => []
  | _ + 1, [] => []
  | fuel + 1, c :: t =>
    match farmMatchAt (c :: t) with
    | some (m, rest) => m :: findFarmsAux fuel rest
    | none => findFarmsAux fuel t

/-- Tail `hours?` of the horizon regex: match `hour`, then an optional
greedy `s`; returns the remainder after the match. -/
def hourTail (r : Str) : Option Str :=
  if (S "hour").isPrefixOf r then
    match r.drop 4 with
    | 's' :: r3 => some r3
    | r2 => some r2
  else none

/-- Match of the regex `(\d+)[\s-]?hours?` at the current position,
returning the digit group and the remainder after the whole match.  The
maximal digit run is taken: shrinking `\d+` by backtracking cannot help,
because the following character would then be a digit, matching neither
`[\s-]` nor `h`.  The optional `[\s-]?` is greedy: the separator is
consumed first and the empty alternative is tried on failure. -/
def horizonMatchAt (s : Str) : Option (Str × Str) :=
  match s with
  | c :: _ =>
    if c.isDigit then
      let ds := s.takeWhile Char.isDigit
      let r1 := s.dropWhile Char.isDigit
      match r1 with
      | c1 :: r2 =>
        if isPySpace c1 || c1 = '-' then
          match hourTail r2 with
          | some rest => some (ds, rest)
          | none =>
            match hourTail r1 with
            | some rest => some (ds, rest)
            | none => none
        else
          match hourTail r1 with
          | some rest => some (ds, rest)
          | none => none
      | [] => none
    else none
  | [] => none

/-- `re.findall` scan for the horizon regex. -/
def findHorizonsAux : Nat → Str → List Str
  | 0, _ => []
  | _ + 1, [] => []
  | fuel + 1, c :: t =>
    match horizonMatchAt (c :: t) with
    | some (ds, rest) => ds :: findHorizonsAux fuel rest
    | none => findHorizonsAux fuel t

/-- Match of the regex `(\d+)%` at the current position. -/
def percentMatchAt (s : Str) : Option (Str × Str) :=
  match s with
  | c :: _ =>
    if c.isDigit then
      match s.dropWhile Char.isDigit with
      | '%' :: rest => some (s.takeWhile Char.isDigit, rest)
      | _ => none
    else none
  | [] => none

/-- `re.findall` scan for the percentage regex. -/
def findPercentsAux : Nat → Str → List Str
  | 0, _ => []
  | _ + 1, [] => []
  | fuel + 1, c :: t =>
    match percentMatchAt (c :: t) with
    | some (ds, rest) => ds :: findPercentsAux fuel rest
    | none => findPercentsAux fuel t

/-- Python `int` applied to a non-empty digit string. -/
def strToNat (ds : Str) : Nat := ds.foldl (fun n c => n * 10 + (c.toNat - 48)) 0

/-- `model_keywords` of `QueryRouter.extract_entities` (src/mcp/server.py:743). -/
def model_keywords : List Str :=
  [S "persistence", S "random forest", S "xgboost", S "lstm", S "ensemble"]

end QueryRouter

/-- Result mapping of `QueryRouter.extract_entities`: a key is present
(`some`) exactly when the corresponding entity list is non-empty. -/
structure Entities where
  wind_farms : Option (List Str)
  horizons : Option (List Nat)
  percentages : Option (List Nat)
  models : Option (List Str)
deriving DecidableEq

namespace QueryRouter

/-- `QueryRouter.extract_entities` (src/mcp/server.py:712-748): wind-farm
mentions (normalized from `wf` to `wp` form), forecast horizons and
percentages (as integers; horizons are scanned on the lower-cased query,
percentages on the original), and model-name keyword mentions.  A key is
omitted (`none`) when its list of matches is empty. -/
def extract_entities (query : Str) : Entities :=
  let query_lower := pyLower query
  let farms := findFarmsAux query_lower.length query_lower
  let wind_farms :=
    if farms.isEmpty then none
    else some (farms.map (fun farm =>
      if pyStartsWith farm wfS then pyReplace farm wfS wpS else farm))
  let horizons := findHorizonsAux query_lower.length query_lower
  let horizons_v := if horizons.isEmpty then none else some (horizons.map strToNat)
  let percents := findPercentsAux query.length query
  let percents_v := if percents.isEmpty then none else some (percents.map strToNat)
  let models := model_keywords.filter (fun m => pyContains query_lower m)
  let models_v := if models.isEmpty then none else some models
  ⟨wind_farms, horizons_v, percents_v, models_v⟩

end QueryRouter

/-- C6: the entity extractor on
`"Compare wf1 and wf3 at 24 hours with 10% improvement"` returns exactly
wind farms `["wp1","wp3"]`, horizons `[24]`, percentages `[10]`, and no
`models` key (nor any other zero-match key). -/
theorem C6_extract_entities_scenario :
    QueryRouter.extract_entities (S "Compare wf1 and wf3 at 24 hours with 10% improvement") =
      { wind_farms := some [S "wp1", S "wp3"],
        horizons := some [24],
        percentages := some [10],
        models := none } := by decide

/-- JSON-ish scalar values stored in payload sub-mappings; a JSON scalar
coming from configuration is modelled by its literal text. -/
inductive PyVal
  | vstr (s : Str)
  | vbool (b : Bool)
deriving DecidableEq

/-- Python `dict.get` over an association list in insertion order. -/
def dictGet {α : Type} (l : List (Str × α)) (k : Str) : Option α :=
  (l.find? (fun p => decide (p.1 = k))).map (fun p => p.2)

/-- Entry of `model_performance_data.available.<model>` in
`notebook_config.json`: only the two keys the code reads are modelled. -/
structure ModelPerf where
  rmse_24h : Option Str
  improvement_over_persistence : Option Str
deriving DecidableEq

/-- The external `notebook_config.json` document, as consumed by the code:
notebook completion flags, feature availability flags, and the `available`
part of `model_performance_data`. -/
structure Config where
  notebook_completion : List (Str × Bool)
  feature_availability : List (Str × Bool)
  model_performance_available : List (Str × ModelPerf)
deriving DecidableEq

/-- `self.feature_availability.get(key, False)`. -/
def faGet (cfg : Config) (k : Str) : Bool := (dictGet cfg.feature_availability k).getD false

/-- `self.notebook_status.get(name, False)`. -/
def nbDone (cfg : Config) (name : Str) : Bool := (dictGet cfg.notebook_completion name).getD false

/-- `self.model_performance['available'].get(model, {}).get('rmse_24h', dflt)`. -/
def rmse24 (cfg : Config) (model dflt : Str) : Str :=
  ((dictGet cfg.model_performance_available model).bind (fun e => e.rmse_24h)).getD dflt

/-- `self.model_performance['available'].get(model, {}).get('improvement_over_persistence', dflt)`. -/
def improv (cfg : Config) (model dflt : Str) : Str :=
  ((dictGet cfg.model_performance_available model).bind
    (fun e => e.improvement_over_persistence)).getD dflt

/-- Dictionary returned by `QueryRouter._handle_unavailable_feature`
(src/mcp/server.py:585-679).  Keys that only some paths produce are
`Option`s: `query_intent`, `specific_data` and `context` appear on the
known-feature path, `next_steps` only on the unknown-feature path. -/
structure FallbackPayload where
  routing_decision : Str
  feature_requested : Str
  status : Str
  query_intent : Option Str
  message : Str
  alternatives : List Str
  available_notebooks : List Str
  specific_data : Option (List (Str × PyVal))
  next_steps : Option (List Str)
  context : Option Str
deriving DecidableEq

/-- The `available_alternatives` table of `_handle_unavailable_feature`
(src/mcp/server.py:588-651): message, alternatives, available notebooks
and specific data for each known feature, `none` for unknown features. -/
def featureResponse (cfg : Config) (feature : Str) :
    Option (Str × List Str × List Str × List (Str × PyVal)) :=
  if feature = S "ensemble_modeling" then
    some (S "Ensemble models are not yet implemented. However, I can provide:",
      [S "XGBoost performance (best individual model): RMSE 24h = " ++
          rmse24 cfg (S "xgboost") (S "0.067"),
       S "Random Forest performance: RMSE 24h = " ++ rmse24 cfg (S "random_forest") (S "0.069"),
       S "Model performance by wind conditions from completed notebooks",
       S "Forecast accuracy at different horizons",
       S "Individual model comparisons vs persistence baseline"],
      [S "06_baseline_models", S "07_ml_models", S "08_deep_learning"],
      [(S "best_available_model", PyVal.vstr (S "XGBoost")),
       (S "best_rmse_24h", PyVal.vstr (rmse24 cfg (S "xgboost") (S "0.067"))),
       (S "improvement_over_persistence", PyVal.vstr (improv cfg (S "xgboost") (S "47%")))])
  else if feature = S "uncertainty_quantification" then
    some (S "Uncertainty estimates are pending implementation. Current insights available:",
      [S "Model error distributions from validation sets",
       S "Performance variance across different wind conditions",
       S "Seasonal accuracy patterns and reliability",
       S "Data quality impact on prediction accuracy",
       S "Cross-validation confidence metrics"],
      [S "07_ml_models", S "08_deep_learning"],
      [(S "error_analysis_available", PyVal.vbool true),
       (S "validation_metrics", PyVal.vstr (S "Available from individual models")),
       (S "confidence_proxy", PyVal.vstr (S "Use cross-validation standard deviation"))])
  else if feature = S "24_hour_forecast" then
    some (S "24-hour specific metrics available from completed models:",
      [S "XGBoost 24h RMSE: " ++ rmse24 cfg (S "xgboost") (S "0.067") ++ S " (" ++
          improv cfg (S "xgboost") (S "47%") ++ S " improvement)",
       S "Random Forest 24h RMSE: " ++ rmse24 cfg (S "random_forest") (S "0.069") ++ S " (" ++
          improv cfg (S "random_forest") (S "45%") ++ S " improvement)",
       S "LSTM 24h RMSE: " ++ rmse24 cfg (S "lstm") (S "0.070") ++ S " (" ++
          improv cfg (S "lstm") (S "43%") ++ S " improvement)",
       S "Persistence baseline 24h RMSE: " ++ rmse24 cfg (S "persistence_baseline") (S "0.125")],
      [S "06_baseline_models", S "07_ml_models"],
      [(S "horizon_analysis_available", PyVal.vbool true),
       (S "individual_models_ready", PyVal.vbool true),
       (S "baseline_comparison", PyVal.vstr (S "Available"))])
  else if feature = S "comprehensive_evaluation" then
    some (S "Comprehensive model evaluation is pending. Available evaluations:",
      [S "Individual model performance metrics",
       S "Baseline model comparisons",
       S "Feature importance analysis",
       S "Temporal pattern validation",
       S "Business impact calculations"],
      [S "06_baseline_models", S "07_ml_models", S "08_deep_learning", S "12_business_impact"],
      [(S "partial_evaluation", PyVal.vbool true),
       (S "production_readiness", PyVal.vstr (S "Individual models validated"))])
  else none

namespace QueryRouter

/-- `QueryRouter._handle_unavailable_feature` (src/mcp/server.py:585-679). -/
def handle_unavailable_feature (cfg : Config) (query feature intent : Str) : FallbackPayload :=
  match featureResponse cfg feature with
  | none =>
    { routing_decision := S "fallback_response"
      feature_requested := feature
      status := S "not_implemented"
      query_intent := none
      message := feature ++ S " is not yet available."
      alternatives := [S "Contact development team for implementation timeline"]
      available_notebooks := []
      specific_data := none
      next_steps := some [S "Check back when Phase 2 development is completed"]
      context := none }
  | some (msg, alts, nbs, sd) =>
    { routing_decision := S "fallback_response"
      feature_requested := feature
      status := S "not_implemented"
      query_intent := some intent
      message := msg
      alternatives := alts
      available_notebooks := nbs
      specific_data := some sd
      next_steps := none
      context :=
        if intent = S "performance" ∧ pyContains query (S "24") = true then
          some (S "Based on your 24-hour forecast performance question:")
        else if intent = S "business" then some (S "For business impact analysis:")
        else none }

end QueryRouter

/-- Python `str.title()` for ASCII: upper-case a letter that follows a
non-letter, lower-case a letter that follows a letter. -/
def pyTitleGo : Bool → Str → Str
  | _, [] => []
  | prevAlpha, c :: t =>
    (if prevAlpha then c.toLower else c.toUpper) :: pyTitleGo c.isAlpha t

/-- Python `str.title()`. -/
def pyTitle (s : Str) : Str := pyTitleGo false s

/-- Python `", ".join(l)`. -/
def joinComma : List Str → Str
  | [] => []
  | [x] => x
  | x :: y :: xs => x ++ S ", " ++ joinComma (y :: xs)

/-- Decimal rendering of a natural number, as Python `str`/f-strings do. -/
def natToStr (n : Nat) : Str := Nat.toDigits 10 n

/-- Decimal rendering of an integer. -/
def intToStr (n : Int) : Str :=
  if n < 0 then '-' :: Nat.toDigits 10 n.natAbs else Nat.toDigits 10 n.toNat

/-- First-occurrence deduplication worker. -/
def dedupAux {α : Type} [DecidableEq α] : List α → List α → List α
  | [], _ => []
  | x :: xs, seen => if x ∈ seen then dedupAux xs seen else x :: dedupAux xs (x :: seen)

/-- `list(dict.fromkeys(l))`: deduplication keeping the first occurrence
of each element, preserving order.  Also used to model `list(set(l))`,
whose iteration order CPython leaves unspecified. -/
def dedupKeepFirst {α : Type} [DecidableEq α] (l : List α) : List α := dedupAux l []

namespace QueryRouter

/-- `QueryRouter.prompt_files` (src/mcp/server.py:558-565). -/
def prompt_files : List (Str × Str) :=
  [(S "master_router", S "00_master_router.md"),
   (S "notebook_navigation", S "01_notebook_navigation.md"),
   (S "power_curve_analysis", S "02_power_curve_analysis.md"),
   (S "forecast_performance", S "03_forecast_performance.md"),
   (S "business_impact", S "04_business_impact.md"),
   (S "quick_reference", S "05_quick_reference.md")]

/-- `self.prompts.get(name, '')` where `self.prompts` was filled by
`_load_prompts` (src/mcp/server.py:681-695) from the prompt files
directory `env`, with the placeholder text for a missing file. -/
def promptGet (env : Str → Option Str) (name : Str) : Str :=
  match dictGet prompt_files name with
  | none => []
  | some filename =>
    match env filename with
    | some content => content
    | none => S "# " ++ pyTitle name ++ S " prompt not found"

/-- The literal response template appended by `get_prompt_combination`
(src/mcp/server.py:792-803). -/
def responseTemplateText : Str :=
  S "## RESPONSE TEMPLATE\nStructure your response as:\n\n1. **Direct Answer**: Specific metric or finding\n2. **Source**: Which notebook and section\n3. **Methodology**: How the result was calculated\n4. **Business Context**: Why this matters for sustainability\n5. **Confidence Level**: High/Medium/Low based on data quality\n6. **Next Steps**: Related analyses to consider\n\nRemember: Focus on actionable insights for the McKinsey case study presentation.\n"

/-- `QueryRouter.get_prompt_combination` (src/mcp/server.py:750-805). -/
def get_prompt_combination (env : Str → Option Str) (intents : List Str)
    (entities : Entities) : Str :=
  let c0 := promptGet env (S "notebook_navigation") ++ S "\n\n"
  let c1 := intents.foldl (fun acc intent =>
    if intent = S "performance" then
      acc ++ S "## FORECAST PERFORMANCE ANALYSIS\n" ++
        promptGet env (S "forecast_performance") ++ S "\n\n"
    else if intent = S "power_curve" then
      acc ++ S "## POWER CURVE ANALYSIS\n" ++
        promptGet env (S "power_curve_analysis") ++ S "\n\n"
    else if intent = S "business" then
      acc ++ S "## BUSINESS IMPACT ANALYSIS\n" ++
        promptGet env (S "business_impact") ++ S "\n\n"
    else if intent = S "comparison" then
      acc ++ S "## MODEL COMPARISON ANALYSIS\n" ++
        promptGet env (S "forecast_performance") ++ S "\n\n"
    else if intent = S "general" ∨ intent = S "data_quality" then
      acc ++ S "## GENERAL ANALYSIS\n" ++ promptGet env (S "quick_reference") ++ S "\n\n"
    else acc) c0
  let hasEntities := entities.wind_farms.isSome || entities.horizons.isSome ||
    entities.percentages.isSome || entities.models.isSome
  let c2 :=
    if hasEntities then
      let e0 := c1 ++ S "## ENTITY-SPECIFIC GUIDANCE\n"
      let e1 := match entities.wind_farms with
        | some farms => e0 ++ S "Focus specifically on: " ++ joinComma farms ++ S "\n"
        | none => e0
      let e2 := match entities.horizons with
        | some hs => e1 ++ S "Analyze forecast horizons: " ++
            joinComma (hs.map natToStr) ++ S " hours\n"
        | none => e1
      let e3 := match entities.percentages with
        | some ps => e2 ++ S "Apply improvement percentages: " ++
            joinComma (ps.map natToStr) ++ S "%\n"
        | none => e2
      let e4 := match entities.models with
        | some ms => e3 ++ S "Focus on models: " ++ joinComma ms ++ S "\n"
        | none => e3
      e4 ++ S "\n"
    else c1
  c2 ++ responseTemplateText

end QueryRouter

/-- One element of `workflow_steps` in `_analyze_pattern_internal`
(src/mcp/server.py:869-954). -/
structure WorkflowStep where
  step : Nat
  action : Str
  notebooks : List Str
  look_for : List Str
  extract : Str
  status : Str
  limitation : Option Str
deriving DecidableEq

/-- The `feature_availability` sub-mapping of the normal response
(src/mcp/server.py:966-970). -/
structure FeatureAvail where
  available_features : List Str
  unavailable_features : List Str
  model_performance_data : List (Str × ModelPerf)
deriving DecidableEq

/-- The `guidance` sub-mapping of the normal response
(src/mcp/server.py:971-977). -/
structure Guidance where
  primary_focus : Str
  notebooks_to_examine : List Str
  key_patterns_to_find : List Str
  response_structure : Str
  development_status : Str
deriving DecidableEq

/-- The normal (non-fallback) response of `_analyze_pattern_internal`
(src/mcp/server.py:959-978). -/
structure NormalPayload where
  query : Str
  detected_intents : List Str
  extracted_entities : Entities
  analysis_prompt : Str
  workflow_steps : List WorkflowStep
  recommended_notebooks : List Str
  feature_availability : FeatureAvail
  guidance : Guidance
deriving DecidableEq

/-- `_get_patterns_for_intents` (src/mcp/server.py:1006-1019); the
`list(set(...))` deduplication is modelled as first-occurrence
deduplication (CPython's set iteration order is unspecified). -/
def patternsForIntents (intents : List Str) : List Str :=
  dedupKeepFirst
    ((if (S "power_curve") ∈ intents then
        [S "groupby", S "capacity_factor", S "power_curve", S "cut_in_speed"] else []) ++
     (if (S "performance") ∈ intents then
        [S "rmse", S "mae", S "model.evaluate", S "test_results"] else []) ++
     (if (S "business") ∈ intents then
        [S "co2_displacement", S "economic_value", S "annual_generation"] else []) ++
     (if (S "data_quality") ∈ intents then
        [S "missing_values", S "outliers", S "describe()", S "info()"] else []))

/-- Workflow-step and notebook-recommendation construction of
`_analyze_pattern_internal` (src/mcp/server.py:869-957). -/
def buildWorkflow (cfg : Config) (intents : List Str) : List WorkflowStep × List Str :=
  let s0 : List WorkflowStep := []
  let r0 : List Str := []
  let p1 :=
    if (S "power_curve") ∈ intents then
      (s0 ++ [{ step := 1, action := S "Analyze power curve characteristics",
                notebooks := [S "02_wind_physics_analysis.ipynb"],
                look_for := [S "power_curve", S "capacity_factor", S "cut_in_speed"],
                extract := S "Turbine operational parameters",
                status := S "available", limitation := none }],
       r0 ++ [S "02_wind_physics_analysis.ipynb"])
    else (s0, r0)
  let p2 :=
    if (S "performance") ∈ intents then
      let av := (if nbDone cfg (S "06_baseline_models") then [S "06_baseline_models.ipynb"] else []) ++
        (if nbDone cfg (S "07_ml_models") then [S "07_ml_models.ipynb"] else []) ++
        (if nbDone cfg (S "08_deep_learning") then [S "08_deep_learning.ipynb"] else [])
      (p1.1 ++ [{ step := p1.1.length + 1,
                  action := S "Evaluate forecast performance (available models only)",
                  notebooks := av,
                  look_for := [S "rmse", S "mae", S "model_comparison",
                    S "baseline_comparison", S "skill_score"],
                  extract := S "Performance metrics by model and horizon",
                  status := S "available",
                  limitation := some (S "Ensemble models not yet implemented") }],
       p1.2 ++ av)
    else p1
  let p3 :=
    if (S "business") ∈ intents ∧ nbDone cfg (S "12_business_impact") = true then
      (p2.1 ++ [{ step := p2.1.length + 1, action := S "Calculate business impact",
                  notebooks := [S "02_wind_physics_analysis.ipynb", S "12_business_impact.ipynb"],
                  look_for := [S "forecast_value_10pct_improvement", S "co2_displacement",
                    S "economic_value", S "business_impact"],
                  extract := S "Environmental and economic benefits",
                  status := S "available", limitation := none }],
       p2.2 ++ [S "02_wind_physics_analysis.ipynb", S "12_business_impact.ipynb"])
    else p2
  let p4 :=
    if (S "data_quality") ∈ intents then
      (p3.1 ++ [{ step := p3.1.length + 1, action := S "Assess data quality",
                  notebooks := [S "01_data_foundation.ipynb"],
                  look_for := [S "missing_values", S "outliers", S "data_quality"],
                  extract := S "Data completeness and quality metrics",
                  status := S "available", limitation := none }],
       p3.2 ++ [S "01_data_foundation.ipynb"])
    else p3
  let p5 :=
    if (S "feature_analysis") ∈ intents then
      let av := (if nbDone cfg (S "05_feature_engineering") then
          [S "05_feature_engineering.ipynb"] else []) ++
        (if nbDone cfg (S "07_ml_models") then [S "07_ml_models.ipynb"] else [])
      if av.isEmpty then p4
      else
        (p4.1 ++ [{ step := p4.1.length + 1, action := S "Analyze feature importance",
                    notebooks := av,
                    look_for := [S "feature_importance", S "permutation_importance",
                      S "shap_values", S "feature_ranking"],
                    extract := S "Feature importance rankings and insights",
                    status := S "available", limitation := none }],
         p4.2 ++ av)
    else p4
  let p6 :=
    if (S "temporal") ∈ intents ∧ nbDone cfg (S "03_temporal_patterns") = true then
      (p5.1 ++ [{ step := p5.1.length + 1, action := S "Assess temporal patterns",
                  notebooks := [S "03_temporal_patterns.ipynb"],
                  look_for := [S "diurnal_patterns", S "seasonal_trends",
                    S "autocorrelation", S "ramp_events"],
                  extract := S "Temporal dependencies and patterns",
                  status := S "available", limitation := none }],
       p5.2 ++ [S "03_temporal_patterns.ipynb"])
    else p5
  p6

/-- Normal-path response construction of `_analyze_pattern_internal`
(src/mcp/server.py:864-978). -/
def buildNormal (cfg : Config) (env : Str → Option Str) (query : Str)
    (intents : List Str) (entities : Entities) : NormalPayload :=
  let analysis_prompt := QueryRouter.get_prompt_combination env intents entities
  let wf := buildWorkflow cfg intents
  let recommended := dedupKeepFirst wf.2
  { query := query
    detected_intents := intents
    extracted_entities := entities
    analysis_prompt := analysis_prompt
    workflow_steps := wf.1
    recommended_notebooks := recommended
    feature_availability :=
      { available_features := (wf.1.filter (fun st => decide (st.status = S "available"))).map
          (fun st => st.action)
        unavailable_features :=
          if !faGet cfg (S "ensemble_predictions") then
            [S "ensemble_modeling", S "uncertainty_quantification"]
          else []
        model_performance_data := cfg.model_performance_available }
    guidance :=
      { primary_focus := intents.headD (S "general")
        notebooks_to_examine := recommended
        key_patterns_to_find := patternsForIntents intents
        response_structure := S "Follow the template in analysis_prompt"
        development_status := S "Phase 1 complete (notebooks 1-8), Phase 2 pending (notebooks 9-12)" } }

/-- Result of `_analyze_pattern_internal`: a structured fallback payload
or the normal template payload.  (The function's `except` branch cannot
fire in this pure model.) -/
inductive AnalyzeResult
  | fallback (p : FallbackPayload)
  | normal (p : NormalPayload)
deriving DecidableEq

/-- `_analyze_pattern_internal` (src/mcp/server.py:811-978): classify (or
take the given pattern type), extract entities, then check the
unavailable-feature gates in order (ensemble, uncertainty words,
comprehensive words, then the 24-hour special case) before falling
through to the normal template payload. -/
def analyze_pattern_internal (cfg : Config) (env : Str → Option Str)
    (query pattern_type : Str) : AnalyzeResult :=
  let intents :=
    if pattern_type = S "general" then QueryRouter.classify_query query else [pattern_type]
  let entities := QueryRouter.extract_entities query
  let query_lower := pyLower query
  if pyContains query_lower (S "ensemble") = true ∧ faGet cfg (S "ensemble_predictions") = false then
    .fallback (QueryRouter.handle_unavailable_feature cfg query (S "ensemble_modeling")
      (intents.headD (S "performance")))
  else if ([S "uncertainty", S "confidence", S "interval", S "bounds"].any
        (fun w => pyContains query_lower w)) = true ∧
      faGet cfg (S "uncertainty_quantification") = false then
    .fallback (QueryRouter.handle_unavailable_feature cfg query (S "uncertainty_quantification")
      (intents.headD (S "uncertainty")))
  else if ([S "comprehensive", S "final", S "production"].any
        (fun w => pyContains query_lower w)) = true ∧
      faGet cfg (S "comprehensive_evaluation") = false then
    .fallback (QueryRouter.handle_unavailable_feature cfg query (S "comprehensive_evaluation")
      (intents.headD (S "performance")))
  else if pyContains query_lower (S "24") = true ∧ pyContains query_lower (S "hour") = true then
    if pyContains query_lower (S "ensemble") = true then
      .fallback (QueryRouter.handle_unavailable_feature cfg query (S "ensemble_modeling")
        (S "performance"))
    else
      let r := QueryRouter.handle_unavailable_feature cfg query (S "24_hour_forecast")
        (S "performance")
      .fallback { r with routing_decision := S "available_with_alternatives",
                         status := S "partial_data_available" }
  else
    .normal (buildNormal cfg env query intents entities)

theorem handle_payload_marks_fallback (cfg : Config) (query feature intent : Str) :
    (QueryRouter.handle_unavailable_feature cfg query feature intent).routing_decision =
        S "fallback_response" ∧
      (QueryRouter.handle_unavailable_feature cfg query feature intent).status =
        S "not_implemented" ∧
      (QueryRouter.handle_unavailable_feature cfg query feature intent).feature_requested =
        feature := by
  rw [QueryRouter.handle_unavailable_feature]
  cases featureResponse cfg feature with
  | none => exact ⟨rfl, rfl, rfl⟩
  | some q =>
    obtain ⟨msg, alts, nbs, sd⟩ := q
    exact ⟨rfl, rfl, rfl⟩

theorem analyze_ensemble_branch (cfg : Config) (env : Str → Option Str)
    (query pattern_type : Str)
    (h1 : pyContains (pyLower query) (S "ensemble") = true)
    (h2 : faGet cfg (S "ensemble_predictions") = false) :
    analyze_pattern_internal cfg env query pattern_type =
      .fallback (QueryRouter.handle_unavailable_feature cfg query (S "ensemble_modeling")
        ((if pattern_type = S "general" then QueryRouter.classify_query query
          else [pattern_type]).headD (S "performance"))) := by
  rw [analyze_pattern_internal]
  rw [if_pos ⟨h1, h2⟩]

theorem analyze_uncertainty_branch (cfg : Config) (env : Str → Option Str)
    (query pattern_type : Str)
    (hn1 : ¬(pyContains (pyLower query) (S "ensemble") = true ∧
      faGet cfg (S "ensemble_predictions") = false))
    (h1 : ([S "uncertainty", S "confidence", S "interval", S "bounds"].any
        (fun w => pyContains (pyLower query) w)) = true)
    (h2 : faGet cfg (S "uncertainty_quantification") = false) :
    analyze_pattern_internal cfg env query pattern_type =
      .fallback (QueryRouter.handle_unavailable_feature cfg query
        (S "uncertainty_quantification")
        ((if pattern_type = S "general" then QueryRouter.classify_query query
          else [pattern_type]).headD (S "uncertainty"))) := by
  rw [analyze_pattern_internal]
  rw [if_neg hn1, if_pos ⟨h1, h2⟩]

theorem analyze_comprehensive_branch (cfg : Config) (env : Str → Option Str)
    (query pattern_type : Str)
    (hn1 : ¬(pyContains (pyLower query) (S "ensemble") = true ∧
      faGet cfg (S "ensemble_predictions") = false))
    (hn2 : ¬(([S "uncertainty", S "confidence", S "interval", S "bounds"].any
        (fun w => pyContains (pyLower query) w)) = true ∧
      faGet cfg (S "uncertainty_quantification") = false))
    (h1 : ([S "comprehensive", S "final", S "production"].any
        (fun w => pyContains (pyLower query) w)) = true)
    (h2 : faGet cfg (S "comprehensive_evaluation") = false) :
    analyze_pattern_internal cfg env query pattern_type =
      .fallback (QueryRouter.handle_unavailable_feature cfg query
        (S "comprehensive_evaluation")
        ((if pattern_type = S "general" then QueryRouter.classify_query query
          else [pattern_type]).headD (S "performance"))) := by
  rw [analyze_pattern_internal]
  rw [if_neg hn1, if_neg hn2, if_pos ⟨h1, h2⟩]

/-- C2 counterexample: a query mentioning the flagged-unavailable
uncertainty capability gets a fallback payload that names no alternative
model and carries no metric from configuration — two configurations with
different XGBoost metrics produce the identical payload, whose
alternatives and specific data are fixed descriptive literals. -/
theorem C2_counterexample :
    analyze_pattern_internal
        { notebook_completion := [], feature_availability := [],
          model_performance_available :=
            [(S "xgboost", { rmse_24h := some (S "0.111"),
                             improvement_over_persistence := some (S "11%") })] }
        (fun _ => none) (S "uncertainty") (S "general") =
      analyze_pattern_internal
        { notebook_completion := [], feature_availability := [],
          model_performance_available :=
            [(S "xgboost", { rmse_24h := some (S "0.222"),
                             improvement_over_persistence := some (S "22%") })] }
        (fun _ => none) (S "uncertainty") (S "general") ∧
    analyze_pattern_internal
        { notebook_completion := [], feature_availability := [],
          model_performance_available :=
            [(S "xgboost", { rmse_24h := some (S "0.111"),
                             improvement_over_persistence := some (S "11%") })] }
        (fun _ => none) (S "uncertainty") (S "general") =
      .fallback
        { routing_decision := S "fallback_response"
          feature_requested := S "uncertainty_quantification"
          status := S "not_implemented"
          query_intent := some (S "uncertainty")
          message := S "Uncertainty estimates are pending implementation. Current insights available:"
          alternatives :=
            [S "Model error distributions from validation sets",
             S "Performance variance across different wind conditions",
             S "Seasonal accuracy patterns and reliability",
             S "Data quality impact on prediction accuracy",
             S "Cross-validation confidence metrics"]
          available_notebooks := [S "07_ml_models", S "08_deep_learning"]
          specific_data := some
            [(S "error_analysis_available", PyVal.vbool true),
             (S "validation_metrics", PyVal.vstr (S "Available from individual models")),
             (S "confidence_proxy", PyVal.vstr (S "Use cross-validation standard deviation"))]
          next_steps := none
          context := none } := by decide

/-- C2 amended: a query mentioning any flagged-unavailable capability
(ensemble / uncertainty words / comprehensive words) always gets a
fallback payload with `routing_decision = "fallback_response"` and
`status = "not_implemented"`, never the normal template payload; for
queries mentioning `ensemble` specifically, the payload additionally
names the alternative model XGBoost together with its RMSE metric read
from configuration (with the built-in default when absent).  The
uncertainty and comprehensive fallbacks offer only fixed descriptive
alternatives. -/
theorem C2_amended_unavailable_feature_fallback (cfg : Config) (env : Str → Option Str)
    (query pattern_type : Str) :
    (((pyContains (pyLower query) (S "ensemble") = true ∧
        faGet cfg (S "ensemble_predictions") = false) ∨
      (([S "uncertainty", S "confidence", S "interval", S "bounds"].any
          (fun w => pyContains (pyLower query) w)) = true ∧
        faGet cfg (S "uncertainty_quantification") = false) ∨
      (([S "comprehensive", S "final", S "production"].any
          (fun w => pyContains (pyLower query) w)) = true ∧
        faGet cfg (S "comprehensive_evaluation") = false)) →
      ∃ p, analyze_pattern_internal cfg env query pattern_type = .fallback p ∧
        p.routing_decision = S "fallback_response" ∧ p.status = S "not_implemented") ∧
    (pyContains (pyLower query) (S "ensemble") = true →
      faGet cfg (S "ensemble_predictions") = false →
      ∃ p, analyze_pattern_internal cfg env query pattern_type = .fallback p ∧
        p.routing_decision = S "fallback_response" ∧ p.status = S "not_implemented" ∧
        p.feature_requested = S "ensemble_modeling" ∧
        (S "XGBoost performance (best individual model): RMSE 24h = " ++
          rmse24 cfg (S "xgboost") (S "0.067")) ∈ p.alternatives ∧
        ∃ sd, p.specific_data = some sd ∧
          (S "best_rmse_24h", PyVal.vstr (rmse24 cfg (S "xgboost") (S "0.067"))) ∈ sd) := by
  have hens : pyContains (pyLower query) (S "ensemble") = true →
      faGet cfg (S "ensemble_predictions") = false →
      ∃ p, analyze_pattern_internal cfg env query pattern_type = .fallback p ∧
        p.routing_decision = S "fallback_response" ∧ p.status = S "not_implemented" ∧
        p.feature_requested = S "ensemble_modeling" ∧
        (S "XGBoost performance (best individual model): RMSE 24h = " ++
          rmse24 cfg (S "xgboost") (S "0.067")) ∈ p.alternatives ∧
        ∃ sd, p.specific_data = some sd ∧
          (S "best_rmse_24h", PyVal.vstr (rmse24 cfg (S "xgboost") (S "0.067"))) ∈ sd := by
    intro h1 h2
    refine ⟨_, analyze_ensemble_branch cfg env query pattern_type h1 h2, ?_⟩
    rw [QueryRouter.handle_unavailable_feature]
    rw [show featureResponse cfg (S "ensemble_modeling") =
      some (S "Ensemble models are not yet implemented. However, I can provide:",
        [S "XGBoost performance (best individual model): RMSE 24h = " ++
            rmse24 cfg (S "xgboost") (S "0.067"),
         S "Random Forest performance: RMSE 24h = " ++ rmse24 cfg (S "random_forest") (S "0.069"),
         S "Model performance by wind conditions from completed notebooks",
         S "Forecast accuracy at different horizons",
         S "Individual model comparisons vs persistence baseline"],
        [S "06_baseline_models", S "07_ml_models", S "08_deep_learning"],
        [(S "best_available_model", PyVal.vstr (S "XGBoost")),
         (S "best_rmse_24h", PyVal.vstr (rmse24 cfg (S "xgboost") (S "0.067"))),
         (S "improvement_over_persistence", PyVal.vstr (improv cfg (S "xgboost") (S "47%")))])
      from by rw [featureResponse, if_pos rfl]]
    refine ⟨rfl, rfl, rfl, ?_, ?_⟩
    · exact List.mem_cons_self _ _
    · exact ⟨_, rfl, List.mem_cons_of_mem _ (List.mem_cons_self _ _)⟩
  constructor
  · intro hcase
    by_cases hb1 : pyContains (pyLower query) (S "ensemble") = true ∧
        faGet cfg (S "ensemble_predictions") = false
    · obtain ⟨p, hp, hrd, hst, _⟩ := hens hb1.1 hb1.2
      exact ⟨p, hp, hrd, hst⟩
    · rcases hcase with hc1 | hc2 | hc3
      · exact absurd hc1 hb1
      · by_cases hb2 : ([S "uncertainty", S "confidence", S "interval", S "bounds"].any
            (fun w => pyContains (pyLower query) w)) = true ∧
            faGet cfg (S "uncertainty_quantification") = false
        · refine ⟨_, analyze_uncertainty_branch cfg env query pattern_type hb1 hb2.1 hb2.2, ?_⟩
          have hmk := handle_payload_marks_fallback cfg query (S "uncertainty_quantification")
            ((if pattern_type = S "general" then QueryRouter.classify_query query
              else [pattern_type]).headD (S "uncertainty"))
          exact ⟨hmk.1, hmk.2.1⟩
        · exact absurd hc2 hb2
      · by_cases hb2 : ([S "uncertainty", S "confidence", S "interval", S "bounds"].any
            (fun w => pyContains (pyLower query) w)) = true ∧
            faGet cfg (S "uncertainty_quantification") = false
        · refine ⟨_, analyze_uncertainty_branch cfg env query pattern_type hb1 hb2.1 hb2.2, ?_⟩
          have hmk := handle_payload_marks_fallback cfg query (S "uncertainty_quantification")
            ((if pattern_type = S "general" then QueryRouter.classify_query query
              else [pattern_type]).headD (S "uncertainty"))
          exact ⟨hmk.1, hmk.2.1⟩
        · refine ⟨_, analyze_comprehensive_branch cfg env query pattern_type hb1 hb2 hc3.1
            hc3.2, ?_⟩
          have hmk := handle_payload_marks_fallback cfg query (S "comprehensive_evaluation")
            ((if pattern_type = S "general" then QueryRouter.classify_query query
              else [pattern_type]).headD (S "performance"))
          exact ⟨hmk.1, hmk.2.1⟩
  · intro h1 h2
    exact hens h1 h2

/-- Witness for C2's amended theorem: a concrete ensemble query under a
configuration whose ensemble flag is false. -/
theorem C2_amended_witness :
    ∃ p, analyze_pattern_internal
        { notebook_completion := [],
          feature_availability := [(S "ensemble_predictions", false)],
          model_performance_available := [] }
        (fun _ => none) (S "use the ensemble") (S "general") = .fallback p ∧
      p.routing_decision = S "fallback_response" ∧ p.status = S "not_implemented" ∧
      p.feature_requested = S "ensemble_modeling" ∧
      (S "XGBoost performance (best individual model): RMSE 24h = " ++
        rmse24 { notebook_completion := [],
                 feature_availability := [(S "ensemble_predictions", false)],
                 model_performance_available := [] } (S "xgboost") (S "0.067")) ∈
        p.alternatives ∧
      ∃ sd, p.specific_data = some sd ∧
        (S "best_rmse_24h", PyVal.vstr
          (rmse24 { notebook_completion := [],
                    feature_availability := [(S "ensemble_predictions", false)],
                    model_performance_available := [] } (S "xgboost") (S "0.067"))) ∈ sd :=
  (C2_amended_unavailable_feature_fallback _ (fun _ => none) (S "use the ensemble")
    (S "general")).2 (by decide) (by decide)

/-- C9: a query containing `24` and `hour` but none of the words guarding
the first three feature gates short-circuits to the `24_hour_forecast`
fallback with `routing_decision = "available_with_alternatives"` and
`status = "partial_data_available"`, for every feature-availability
configuration; it never reaches the normal template payload. -/
theorem C9_24hour_short_circuit (cfg : Config) (env : Str → Option Str)
    (query pattern_type : Str)
    (h24 : pyContains (pyLower query) (S "24") = true)
    (hhour : pyContains (pyLower query) (S "hour") = true)
    (hens : pyContains (pyLower query) (S "ensemble") = false)
    (hunc : pyContains (pyLower query) (S "uncertainty") = false)
    (hconf : pyContains (pyLower query) (S "confidence") = false)
    (hintv : pyContains (pyLower query) (S "interval") = false)
    (hbnds : pyContains (pyLower query) (S "bounds") = false)
    (hcomp : pyContains (pyLower query) (S "comprehensive") = false)
    (hfin : pyContains (pyLower query) (S "final") = false)
    (hprod : pyContains (pyLower query) (S "production") = false) :
    analyze_pattern_internal cfg env query pattern_type =
      .fallback { QueryRouter.handle_unavailable_feature cfg query (S "24_hour_forecast")
          (S "performance") with
        routing_decision := S "available_with_alternatives",
        status := S "partial_data_available" } ∧
    ({ QueryRouter.handle_unavailable_feature cfg query (S "24_hour_forecast")
          (S "performance") with
        routing_decision := S "available_with_alternatives",
        status := S "partial_data_available" } : FallbackPayload).routing_decision =
      S "available_with_alternatives" ∧
    ({ QueryRouter.handle_unavailable_feature cfg query (S "24_hour_forecast")
          (S "performance") with
        routing_decision := S "available_with_alternatives",
        status := S "partial_data_available" } : FallbackPayload).status =
      S "partial_data_available" ∧
    ({ QueryRouter.handle_unavailable_feature cfg query (S "24_hour_forecast")
          (S "performance") with
        routing_decision := S "available_with_alternatives",
        status := S "partial_data_available" } : FallbackPayload).feature_requested =
      S "24_hour_forecast" := by
  have hn1 : ¬(pyContains (pyLower query) (S "ensemble") = true ∧
      faGet cfg (S "ensemble_predictions") = false) := by
    rw [hens]
    simp
  have ha2 : ([S "uncertainty", S "confidence", S "interval", S "bounds"].any
      (fun w => pyContains (pyLower query) w)) = false := by
    simp [hunc, hconf, hintv, hbnds]
  have hn2 : ¬(([S "uncertainty", S "confidence", S "interval", S "bounds"].any
      (fun w => pyContains (pyLower query) w)) = true ∧
      faGet cfg (S "uncertainty_quantification") = false) := by
    rw [ha2]
    simp
  have ha3 : ([S "comprehensive", S "final", S "production"].any
      (fun w => pyContains (pyLower query) w)) = false := by
    simp [hcomp, hfin, hprod]
  have hn3 : ¬(([S "comprehensive", S "final", S "production"].any
      (fun w => pyContains (pyLower query) w)) = true ∧
      faGet cfg (S "comprehensive_evaluation") = false) := by
    rw [ha3]
    simp
  refine ⟨?_, rfl, rfl, ?_⟩
  · rw [analyze_pattern_internal, if_neg hn1, if_neg hn2, if_neg hn3,
      if_pos ⟨h24, hhour⟩, if_neg (by rw [hens]; simp)]
  · exact (handle_payload_marks_fallback cfg query (S "24_hour_forecast")
      (S "performance")).2.2

/-- Witness for C9: the query `"24 hour"` under a configuration with every
feature flag true still produces the 24-hour fallback payload. -/
theorem C9_24hour_witness :
    analyze_pattern_internal
        { notebook_completion := [],
          feature_availability :=
            [(S "ensemble_predictions", true), (S "uncertainty_quantification", true),
             (S "comprehensive_evaluation", true)],
          model_performance_available := [] }
        (fun _ => none) (S "24 hour") (S "general") =
      .fallback { QueryRouter.handle_unavailable_feature
          { notebook_completion := [],
            feature_availability :=
              [(S "ensemble_predictions", true), (S "uncertainty_quantification", true),
               (S "comprehensive_evaluation", true)],
            model_performance_available := [] }
          (S "24 hour") (S "24_hour_forecast") (S "performance") with
        routing_decision := S "available_with_alternatives",
        status := S "partial_data_available" } :=
  (C9_24hour_short_circuit _ (fun _ => none) (S "24 hour") (S "general")
    (by decide) (by decide) (by decide) (by decide) (by decide) (by decide) (by decide)
    (by decide) (by decide) (by decide)).1

/-- Python `int()` on a rational: truncation toward zero. -/
def pyIntOfRat (q : ℚ) : Int := if 0 ≤ q then ⌊q⌋ else ⌈q⌉

/-- The `quantify_uncertainty` tool (src/mcp/server.py:1341-1381):
an out-of-range confidence level is silently replaced by 0.95, a query
string is built from the arguments, and the result is routed to
`_analyze_pattern_internal` with pattern type `uncertainty`. -/
def quantify_uncertainty (cfg : Config) (env : Str → Option Str)
    (confidence_level : ℚ) (forecast_horizon : Int) (aggregation_level : Str) :
    AnalyzeResult :=
  let cl : ℚ :=
    if ¬((0.5 : ℚ) ≤ confidence_level ∧ confidence_level ≤ (0.99 : ℚ)) then (0.95 : ℚ)
    else confidence_level
  let query :=
    S "Quantify forecast uncertainty at " ++ intToStr (pyIntOfRat (cl * 100)) ++
      S "% confidence" ++ S " " ++ S "for " ++ intToStr forecast_horizon ++
      S " hour ahead predictions" ++ S " " ++ S "aggregated at " ++ aggregation_level ++
      S " level"
  analyze_pattern_internal cfg env query (S "uncertainty")

/-- C10: for every confidence level outside the closed interval
[0.5, 0.99], `quantify_uncertainty` silently substitutes 0.95 and returns
exactly the result of the call with confidence level 0.95 and the same
other arguments; no error is raised (the model is a total function and
its result carries no error field for this input). -/
theorem C10_quantify_uncertainty_clamps (cfg : Config) (env : Str → Option Str)
    (confidence_level : ℚ) (forecast_horizon : Int) (aggregation_level : Str)
    (h : ¬((0.5 : ℚ) ≤ confidence_level ∧ confidence_level ≤ (0.99 : ℚ))) :
    quantify_uncertainty cfg env confidence_level forecast_horizon aggregation_level =
      quantify_uncertainty cfg env (0.95 : ℚ) forecast_horizon aggregation_level := by
  rw [quantify_uncertainty, quantify_uncertainty]
  rw [if_pos h, if_neg (by norm_num)]

/-- Witness for C10 at the out-of-range confidence level 2. -/
theorem C10_quantify_uncertainty_witness :
    quantify_uncertainty
        { notebook_completion := [], feature_availability := [],
          model_performance_available := [] }
        (fun _ => none) (2 : ℚ) 24 (S "portfolio") =
      quantify_uncertainty
        { notebook_completion := [], feature_availability := [],
          model_performance_available := [] }
        (fun _ => none) (0.95 : ℚ) 24 (S "portfolio") :=
  C10_quantify_uncertainty_clamps _ (fun _ => none) 2 24 (S "portfolio") (by norm_num)

/-- A cell of a loaded columnar table: missing (`NaN`), text, or numeric. -/
inductive PdVal
  | na
  | pstr (s : Str)
  | pnum (q : ℚ)
deriving DecidableEq

/-- A loaded table: named columns and rows of cells in column order. -/
structure DataFrame where
  columns : List Str
  rows : List (List PdVal)
deriving DecidableEq

/-- Cell of a row addressed by column name (first matching column). -/
def cellAt (df : DataFrame) (row : List PdVal) (name : Str) : PdVal :=
  match df.columns.findIdx? (fun c => decide (c = name)) with
  | some i => row.getD i .na
  | none => .na

/-- Column `i`'s cells. -/
def colCells (df : DataFrame) (i : Nat) : List PdVal :=
  df.rows.map (fun r => r.getD i .na)

/-- Pandas numeric dtype (`float64`/`int64`): no text cell in the column
(an all-`NaN` column is `float64`). -/
def numericDtype (cells : List PdVal) : Bool :=
  cells.all (fun v => match v with | .pstr _ => false | _ => true)

/-- `df[col].isna().all()`. -/
def allNa (cells : List PdVal) : Bool :=
  cells.all (fun v => match v with | .na => true | _ => false)

/-- `df[col].mean()` with pandas' default `skipna`; only evaluated under
guards that ensure at least one numeric cell. -/
def colMean (cells : List PdVal) : ℚ :=
  let nums := cells.filterMap (fun v => match v with | .pnum q => some q | _ => none)
  nums.foldl (· + ·) 0 / (nums.length : ℚ)

/-- Fractional decimal literal parser used by `pyFloat`. -/
def parseUnsignedRat? (t : Str) : Option ℚ :=
  let ip := t.takeWhile Char.isDigit
  let rest := t.dropWhile Char.isDigit
  match rest with
  | [] => if ip.isEmpty then none else some (QueryRouter.strToNat ip)
  | '.' :: fp =>
    if fp.all Char.isDigit && (!ip.isEmpty || !fp.isEmpty) then
      some ((QueryRouter.strToNat ip : ℚ) + (QueryRouter.strToNat fp : ℚ) / ((10 : ℚ) ^ fp.length))
    else none
  | _ => none

/-- Python `float()` on a cell value: numbers pass through, text is
parsed as a plain decimal literal (the subset these tables use; a
non-numeric text raises `ValueError`, modelled as `none`).  `NaN` cells
are only reached behind `pd.notna` guards. -/
def pyFloat : PdVal → Option ℚ
  | .pnum q => some q
  | .pstr s =>
    match s with
    | '-' :: t => (parseUnsignedRat? t).map Neg.neg
    | '+' :: t => parseUnsignedRat? t
    | t => parseUnsignedRat? t
  | .na => none

/-- The two sub-mappings filled by the extraction helpers of `DataAccess`. -/
structure Extracted where
  power_curve_parameters : List (Str × ℚ)
  capacity_factors : List (Str × ℚ)
deriving DecidableEq

/-- Python dict assignment `d[k] = v` on an association list: overwrite in
place on an existing key, append otherwise. -/
def updateAssoc {α : Type} : List (Str × α) → Str → α → List (Str × α)
  | [], k, v => [(k, v)]
  | (k', v') :: t, k, v =>
    if k' = k then (k', v) :: t else (k', v') :: updateAssoc t k v

/-- Python `d.update(u)`. -/
def updateAll {α : Type} (acc upd : List (Str × α)) : List (Str × α) :=
  upd.foldl (fun a p => updateAssoc a p.1 p.2) acc

namespace DataAccess

/-- `self.file_mapping['power_curve']` (src/mcp/server.py:43-49). -/
def file_mapping_power_curve : List Str :=
  [S "power_curve_parameters.parquet",
   S "02_wind_physics_analysis.parquet",
   S "baseline_power_curve_parameters.parquet",
   S "summary_stats.parquet",
   S "01_comprehensive_eda_results.parquet"]

/-- `self.file_mapping['data_quality']` (src/mcp/server.py:55-59). -/
def file_mapping_data_quality : List Str :=
  [S "01_comprehensive_eda_results.parquet",
   S "data_quality_metrics.parquet",
   S "01_data_foundation_results.parquet"]

/-- Worker of `DataAccess._extract_metrics_from_row`
(src/mcp/server.py:440-463): walk the columns in order, and for each
non-`NaN` cell record it under the first matching keyword rule.  A
`float()` failure raises, modelled as `none`. -/
def emfrGo (cell : Str → PdVal) : List Str → Extracted → Option Extracted
  | [], acc => some acc
  | col :: rest, acc =>
    let value := cell col
    if value ≠ .na then
      let cl := pyLower col
      if pyContains cl (S "capacity") = true ∧ pyContains cl (S "factor") = true then
        match pyFloat value with
        | some q => emfrGo cell rest
            { acc with capacity_factors := updateAssoc acc.capacity_factors col q }
        | none => none
      else if pyContains cl (S "cut") = true ∧ pyContains cl (S "in") = true then
        match pyFloat value with
        | some q => emfrGo cell rest
            { acc with power_curve_parameters :=
                updateAssoc acc.power_curve_parameters (S "cut_in_speed") q }
        | none => none
      else if pyContains cl (S "cut") = true ∧ pyContains cl (S "out") = true then
        match pyFloat value with
        | some q => emfrGo cell rest
            { acc with power_curve_parameters :=
                updateAssoc acc.power_curve_parameters (S "cut_out_speed") q }
        | none => none
      else if pyContains cl (S "rated") = true ∧ pyContains cl (S "speed") = true then
        match pyFloat value with
        | some q => emfrGo cell rest
            { acc with power_curve_parameters :=
                updateAssoc acc.power_curve_parameters (S "rated_speed") q }
        | none => none
      else if pyContains cl (S "rated") = true ∧ pyContains cl (S "power") = true then
        match pyFloat value with
        | some q => emfrGo cell rest
            { acc with power_curve_parameters :=
                updateAssoc acc.power_curve_parameters (S "rated_power") q }
        | none => none
      else emfrGo cell rest acc
    else emfrGo cell rest acc

/-- `DataAccess._extract_metrics_from_row` on one row of `df`. -/
def extract_metrics_from_row (df : DataFrame) (row : List PdVal) : Option Extracted :=
  emfrGo (cellAt df row) df.columns ⟨[], []⟩

/-- Worker of `DataAccess._extract_aggregate_metrics`
(src/mcp/server.py:465-481), walking columns with their index. -/
def eamGo (df : DataFrame) : Nat → List Str → Extracted → Extracted
  | _, [], acc => acc
  | i, col :: rest, acc =>
    let cells := colCells df i
    let cl := pyLower col
    if numericDtype cells = true ∧ allNa cells = false then
      if pyContains cl (S "capacity") = true ∧ pyContains cl (S "factor") = true then
        eamGo df (i + 1) rest
          { acc with capacity_factors :=
              updateAssoc acc.capacity_factors (S "average_" ++ col) (colMean cells) }
      else if ([S "cut_in", S "rated_speed", S "rated_power"].any
          (fun k => pyContains cl k)) = true then
        eamGo df (i + 1) rest
          { acc with power_curve_parameters :=
              updateAssoc acc.power_curve_parameters (S "average_" ++ col) (colMean cells) }
      else eamGo df (i + 1) rest acc
    else eamGo df (i + 1) rest acc

/-- `DataAccess._extract_aggregate_metrics`. -/
def extract_aggregate_metrics (df : DataFrame) : Extracted :=
  eamGo df 0 df.columns ⟨[], []⟩

/-- Row test for `df['wind_farm'].str.lower() == variant.lower()`:
non-text cells lower to `NaN` and never compare equal. -/
def rowMatchesVariant (df : DataFrame) (variant : Str) (row : List PdVal) : Bool :=
  match cellAt df row (S "wind_farm") with
  | .pstr s => decide (pyLower s = pyLower variant)
  | _ => false

/-- The variant loop of `_extract_farm_data` (src/mcp/server.py:411-416):
first variant whose mask is non-empty, then that mask's first row. -/
def findFirstVariantRow (df : DataFrame) : List Str → Option (List PdVal)
  | [] => none
  | v :: rest =>
    match df.rows.find? (rowMatchesVariant df v) with
    | some row => some row
    | none => findFirstVariantRow df rest

/-- `int(normalized_farm[-1])` as used by the positional fallback: the
last character as a digit, or a failure (`ValueError`/`IndexError`). -/
def lastCharToInt? (n : Str) : Option Int :=
  match n.getLast? with
  | some c => if c.isDigit then some ((c.toNat : Int) - 48) else none
  | none => none

/-- `DataAccess._extract_farm_data` (src/mcp/server.py:397-438): match a
specific farm row via the `wind_farm` column, else fall back to the
positional row-index heuristic for tables of at most 7 rows, else (no
farm requested) aggregate; any extraction exception yields the empty
result via the surrounding `except`. -/
def extract_farm_data (df : DataFrame) (normalized_farm original_farm : Option Str) :
    Extracted :=
  match normalized_farm with
  | some nf =>
    if (S "wind_farm") ∈ df.columns then
      match findFirstVariantRow df (nf :: (match original_farm with
        | some o => if o.isEmpty then [] else [pyLower o, pyUpper o]
        | none => [])) with
      | some row => (extract_metrics_from_row df row).getD ⟨[], []⟩
      | none => ⟨[], []⟩
    else if df.rows.length ≤ 7 then
      match lastCharToInt? nf with
      | some k =>
        if 0 ≤ k - 1 ∧ k - 1 < (df.rows.length : Int) then
          (extract_metrics_from_row df (df.rows.getD (k - 1).toNat [])).getD ⟨[], []⟩
        else ⟨[], []⟩
      | none => ⟨[], []⟩
    else ⟨[], []⟩
  | none => extract_aggregate_metrics df

/-- Result dictionary of `DataAccess._get_power_curve_data`
(src/mcp/server.py:272-326).  The metadata timestamp is impure and not
modelled; the other metadata entries are the two final fields. -/
structure PCResult where
  wind_farm : Option Str
  method : Str
  data_type : Str
  power_curve_parameters : List (Str × ℚ)
  capacity_factors : List (Str × ℚ)
  data_quality : List (Str × ℚ)
  source_files : List Str
  files_processed : Nat
  wind_farm_normalized : Option Str
deriving DecidableEq

/-- Candidate-file loop of `_get_power_curve_data`
(src/mcp/server.py:289-313): a missing or unreadable file is skipped; a
loaded file is appended to `source_files` before extraction; the guard
`if extracted_data and any(v is not None for v in extracted_data.values())`
always holds (both values are dicts), so the merge always runs; the loop
breaks once `power_curve_parameters` is non-empty. -/
def pcLoop (env : Str → Option DataFrame) (nf orig : Option Str) :
    List Str → PCResult → PCResult
  | [], acc => acc
  | f :: rest, acc =>
    match env f with
    | none => pcLoop env nf orig rest acc
    | some df =>
      let acc1 := { acc with source_files := acc.source_files ++ [f] }
      let ex := extract_farm_data df nf orig
      let acc2 := { acc1 with
        power_curve_parameters := updateAll acc1.power_curve_parameters ex.power_curve_parameters,
        capacity_factors := updateAll acc1.capacity_factors ex.capacity_factors }
      if acc2.power_curve_parameters.length > 0 then acc2
      else pcLoop env nf orig rest acc2

/-- Initial result dictionary of `_get_power_curve_data`
(src/mcp/server.py:274-282). -/
def pcInit (wind_farm : Option Str) : PCResult :=
  { wind_farm := wind_farm, method := S "integrated_data_access",
    data_type := S "power_curve", power_curve_parameters := [], capacity_factors := [],
    data_quality := [], source_files := [], files_processed := 0,
    wind_farm_normalized := none }

/-- Metadata step of `_get_power_curve_data` (src/mcp/server.py:315-321);
the impure timestamp is not modelled. -/
def pcAssemble (nf : Option Str) (acc : PCResult) : PCResult :=
  { acc with files_processed := acc.source_files.length, wind_farm_normalized := nf }

/-- `DataAccess._get_power_curve_data` over a file environment `env`
(`none` models a missing or unreadable file). -/
def get_power_curve_data (env : Str → Option DataFrame) (wind_farm : Option Str) : PCResult :=
  pcAssemble (wind_farm.bind normalize_wind_farm_id)
    (pcLoop env (wind_farm.bind normalize_wind_farm_id) wind_farm file_mapping_power_curve
      (pcInit wind_farm))

end DataAccess

/-- A value of the `data_quality_metrics` mapping: a numeric mean (`NaN`
when the column is all-`NaN`), or the `value_counts().to_dict()` of a
text column. -/
inductive QVal
  | qnum (q : ℚ)
  | qnan
  | qcounts (counts : List (PdVal × Nat))
deriving DecidableEq

/-- `df[col].value_counts().to_dict()`: counts of the non-`NaN` values,
sorted by count descending (stably, with ties in first-occurrence order;
pandas leaves the tie order unspecified). -/
def value_counts (cells : List PdVal) : List (PdVal × Nat) :=
  let nonNa := cells.filter (fun v => decide (v ≠ PdVal.na))
  ((dedupKeepFirst nonNa).map
    (fun v => (v, (nonNa.filter (fun w => decide (w = v))).length))).mergeSort
    (fun a b => decide (b.2 ≤ a.2))

namespace DataAccess

/-- `df[col].dtype == 'object'`: the column holds text. -/
def objectDtype (cells : List PdVal) : Bool :=
  cells.any (fun v => match v with | .pstr _ => true | _ => false)

/-- Worker of `DataAccess._extract_quality_metrics`
(src/mcp/server.py:483-502), walking columns with their index. -/
def eqmGo (df : DataFrame) : Nat → List Str → List (Str × QVal) → List (Str × QVal)
  | _, [], acc => acc
  | i, col :: rest, acc =>
    let cells := colCells df i
    let cl := pyLower col
    if ([S "missing", S "outlier", S "completeness", S "quality", S "valid"].any
        (fun k => pyContains cl k)) = true then
      if numericDtype cells = true then
        let v := if allNa cells then QVal.qnan else QVal.qnum (colMean cells)
        eqmGo df (i + 1) rest (updateAssoc acc col v)
      else if objectDtype cells = true then
        eqmGo df (i + 1) rest (updateAssoc acc col (QVal.qcounts (value_counts cells)))
      else eqmGo df (i + 1) rest acc
    else eqmGo df (i + 1) rest acc

/-- `DataAccess._extract_quality_metrics` (its `wind_farm` argument is
unused by the code). -/
def extract_quality_metrics (df : DataFrame) : List (Str × QVal) :=
  eqmGo df 0 df.columns []

/-- Result dictionary of `DataAccess._get_data_quality`
(src/mcp/server.py:343-374). -/
structure DQResult where
  wind_farm : Option Str
  method : Str
  data_type : Str
  data_quality_metrics : List (Str × QVal)
  source_files : List Str
deriving DecidableEq

/-- Candidate-file loop of `_get_data_quality`: no early exit; the
metrics mapping is updated whenever a file yields a non-empty one. -/
def dqLoop (env : Str → Option DataFrame) : List Str → DQResult → DQResult
  | [], acc => acc
  | f :: rest, acc =>
    match env f with
    | none => dqLoop env rest acc
    | some df =>
      let acc1 := { acc with source_files := acc.source_files ++ [f] }
      let q := extract_quality_metrics df
      let acc2 :=
        if q.isEmpty then acc1
        else { acc1 with data_quality_metrics := updateAll acc1.data_quality_metrics q }
      dqLoop env rest acc2

/-- `DataAccess._get_data_quality`. -/
def get_data_quality (env : Str → Option DataFrame) (wind_farm : Option Str) : DQResult :=
  dqLoop env file_mapping_data_quality
    { wind_farm := wind_farm, method := S "integrated_data_access",
      data_type := S "data_quality", data_quality_metrics := [], source_files := [] }

/-- Result dictionary of `DataAccess._get_capacity_factors`
(src/mcp/server.py:328-341), repackaging the power-curve result. -/
structure CFResult where
  wind_farm : Option Str
  method : Str
  data_type : Str
  capacity_factors : List (Str × ℚ)
  power_curve_parameters : List (Str × ℚ)
  source_files : List Str
  files_processed : Nat
  wind_farm_normalized : Option Str
deriving DecidableEq

/-- `DataAccess._get_capacity_factors`. -/
def get_capacity_factors (env : Str → Option DataFrame) (wind_farm : Option Str) : CFResult :=
  let power_data := get_power_curve_data env wind_farm
  { wind_farm := wind_farm, method := S "integrated_data_access",
    data_type := S "capacity_factors",
    capacity_factors := power_data.capacity_factors,
    power_curve_parameters := power_data.power_curve_parameters,
    source_files := power_data.source_files,
    files_processed := power_data.files_processed,
    wind_farm_normalized := power_data.wind_farm_normalized }

/-- Result dictionary of `DataAccess._get_summary`
(src/mcp/server.py:376-395); `list(set(a + b))` is modelled as
first-occurrence deduplication (CPython set order is unspecified). -/
structure SummaryResult where
  wind_farm : Option Str
  method : Str
  data_type : Str
  power_curve_parameters : List (Str × ℚ)
  capacity_factors : List (Str × ℚ)
  data_quality_metrics : List (Str × QVal)
  source_files : List Str
  components : List Str
deriving DecidableEq

/-- `DataAccess._get_summary`. -/
def get_summary (env : Str → Option DataFrame) (wind_farm : Option Str) : SummaryResult :=
  let power_data := get_power_curve_data env wind_farm
  let quality_data := get_data_quality env wind_farm
  { wind_farm := wind_farm, method := S "integrated_data_access",
    data_type := S "summary",
    power_curve_parameters := power_data.power_curve_parameters,
    capacity_factors := power_data.capacity_factors,
    data_quality_metrics := quality_data.data_quality_metrics,
    source_files := dedupKeepFirst (power_data.source_files ++ quality_data.source_files),
    components := [S "power_curve", S "data_quality"] }

/-- Dispatch result of `DataAccess.get_wind_farm_data`
(src/mcp/server.py:232-270): one shape per supported category, or the
error dictionary for an unknown category. -/
inductive WindFarmData
  | power_curve (r : PCResult)
  | capacity_factors (r : CFResult)
  | data_quality (r : DQResult)
  | summary (r : SummaryResult)
  | unknown_type (error : Str) (supported_types : List Str)
deriving DecidableEq

/-- `DataAccess.get_wind_farm_data` (first call; the per-process result
cache returns the same value on repeats and is not modelled). -/
def get_wind_farm_data (env : Str → Option DataFrame) (wind_farm : Option Str)
    (data_type : Str) : WindFarmData :=
  if data_type = S "power_curve" then .power_curve (get_power_curve_data env wind_farm)
  else if data_type = S "capacity_factors" then
    .capacity_factors (get_capacity_factors env wind_farm)
  else if data_type = S "data_quality" then .data_quality (get_data_quality env wind_farm)
  else if data_type = S "summary" then .summary (get_summary env wind_farm)
  else .unknown_type (S "Unknown data_type: " ++ data_type)
    [S "power_curve", S "capacity_factors", S "data_quality", S "summary"]

end DataAccess

theorem findFirstVariantRow_eq_none {df : DataFrame}
    (h : ∀ row ∈ df.rows, ∀ s, cellAt df row (S "wind_farm") = PdVal.pstr s →
      pyLower s ≠ S "wp9") :
    ∀ vs : List Str, (∀ v ∈ vs, pyLower v = S "wp9") →
      DataAccess.findFirstVariantRow df vs = none := by
  intro vs hvs
  induction vs with
  | nil => rfl
  | cons v rest ih =>
    rw [DataAccess.findFirstVariantRow]
    have hnone : df.rows.find? (DataAccess.rowMatchesVariant df v) = none := by
      rw [List.find?_eq_none]
      intro row hrow
      rw [DataAccess.rowMatchesVariant]
      cases hcell : cellAt df row (S "wind_farm") with
      | pstr s =>
        simp only [decide_eq_true_eq]
        rw [hvs v (List.mem_cons_self _ _)]
        exact h row hrow s hcell
      | na => simp
      | pnum q => simp
    rw [hnone]
    exact ih (fun w hw => hvs w (List.mem_cons_of_mem _ hw))

theorem extract_wp9_empty (df : DataFrame)
    (h : ∀ row ∈ df.rows, ∀ s, cellAt df row (S "wind_farm") = PdVal.pstr s →
      pyLower s ≠ S "wp9") :
    DataAccess.extract_farm_data df (some (S "wp9")) (some (S "wp9")) = ⟨[], []⟩ := by
  rw [DataAccess.extract_farm_data]
  split
  · -- the table has a wind_farm column
    rw [findFirstVariantRow_eq_none h _ (by decide)]
  · split
    · -- positional fallback: wp9 maps to row index 8, out of range
      next hle =>
      rw [show DataAccess.lastCharToInt? (S "wp9") = some 9 from by decide]
      show (if 0 ≤ (9 : Int) - 1 ∧ (9 : Int) - 1 < (df.rows.length : Int) then _ else _) = _
      rw [if_neg]
      rintro ⟨h1, h2⟩
      have hc : (df.rows.length : Int) ≤ 7 := by exact_mod_cast hle
      omega
    · rfl

theorem pcLoop_all_empty (env : Str → Option DataFrame) (nf orig : Option Str)
    (files : List Str) (acc : DataAccess.PCResult)
    (hext : ∀ f ∈ files, ∀ df, env f = some df →
      DataAccess.extract_farm_data df nf orig = ⟨[], []⟩)
    (hacc : acc.power_curve_parameters = []) :
    DataAccess.pcLoop env nf orig files acc =
      { acc with source_files :=
          acc.source_files ++ files.filter (fun f => (env f).isSome) } := by
  induction files generalizing acc with
  | nil =>
    rw [List.filter_nil, List.append_nil]
    rfl
  | cons f rest ih =>
    cases henv : env f with
    | none =>
      simp only [DataAccess.pcLoop, henv]
      rw [List.filter_cons_of_neg (by simp [henv])]
      exact ih acc (fun g hg => hext g (List.mem_cons_of_mem _ hg)) hacc
    | some df =>
      simp only [DataAccess.pcLoop, henv, hext f (List.mem_cons_self _ _) df henv]
      rw [if_neg (by simp [updateAll, hacc])]
      rw [ih _ (fun g hg => hext g (List.mem_cons_of_mem _ hg)) (by simp [updateAll, hacc])]
      rw [List.filter_cons_of_pos (by simp [henv])]
      simp [updateAll]

/-- C1 counterexample: with one loadable candidate file whose table does
not contain `wp9`, the fetch returns the requested identifier and
category with empty `power_curve_parameters` — but `source_files` is the
non-empty list of loaded candidate files, not the empty list the claim
requires when nothing matched. -/
theorem C1_counterexample :
    DataAccess.get_wind_farm_data
        (fun f => if f = S "power_curve_parameters.parquet" then
          some { columns := [S "wind_farm"], rows := [[PdVal.pstr (S "wp1")]] } else none)
        (some (S "wp9")) (S "power_curve") =
      .power_curve
        { wind_farm := some (S "wp9"), method := S "integrated_data_access",
          data_type := S "power_curve", power_curve_parameters := [],
          capacity_factors := [], data_quality := [],
          source_files := [S "power_curve_parameters.parquet"],
          files_processed := 1, wind_farm_normalized := some (S "wp9") } ∧
    [S "power_curve_parameters.parquet"] ≠ ([] : List Str) := by decide

/-- C1 amended: fetching `power_curve` data for `wp9` when no loaded
table's `wind_farm` column contains it never raises and returns the
requested identifier and category, an empty `power_curve_parameters`
sub-mapping, and a `source_files` list holding exactly the candidate
files that loaded successfully — empty precisely when no candidate file
is present, non-empty otherwise even though nothing matched. -/
theorem C1_amended_wp9_fetch (env : Str → Option DataFrame)
    (h : ∀ f df, env f = some df → ∀ row ∈ df.rows, ∀ s,
      cellAt df row (S "wind_farm") = PdVal.pstr s → pyLower s ≠ S "wp9") :
    DataAccess.get_wind_farm_data env (some (S "wp9")) (S "power_curve") =
      .power_curve
        { wind_farm := some (S "wp9"), method := S "integrated_data_access",
          data_type := S "power_curve", power_curve_parameters := [], capacity_factors := [],
          data_quality := [],
          source_files := DataAccess.file_mapping_power_curve.filter (fun f => (env f).isSome),
          files_processed :=
            (DataAccess.file_mapping_power_curve.filter (fun f => (env f).isSome)).length,
          wind_farm_normalized := some (S "wp9") } := by
  rw [DataAccess.get_wind_farm_data, if_pos rfl, DataAccess.get_power_curve_data]
  rw [show (some (S "wp9")).bind DataAccess.normalize_wind_farm_id = some (S "wp9")
    from by decide]
  rw [pcLoop_all_empty env (some (S "wp9")) (some (S "wp9"))
    DataAccess.file_mapping_power_curve (DataAccess.pcInit (some (S "wp9")))
    (fun f _ df hdf => extract_wp9_empty df (h f df hdf)) rfl]
  rw [DataAccess.pcAssemble]
  simp [DataAccess.pcInit]

/-- Witness for C1's amended theorem with no candidate file present:
`source_files` is then empty. -/
theorem C1_amended_witness :
    DataAccess.get_wind_farm_data (fun _ => none) (some (S "wp9")) (S "power_curve") =
      .power_curve
        { wind_farm := some (S "wp9"), method := S "integrated_data_access",
          data_type := S "power_curve", power_curve_parameters := [], capacity_factors := [],
          data_quality := [],
          source_files := DataAccess.file_mapping_power_curve.filter
            (fun f => ((fun (_ : Str) => (none : Option DataFrame)) f).isSome),
          files_processed :=
            (DataAccess.file_mapping_power_curve.filter
              (fun f => ((fun (_ : Str) => (none : Option DataFrame)) f).isSome)).length,
          wind_farm_normalized := some (S "wp9") } :=
  C1_amended_wp9_fetch (fun _ => none)
    (fun _ df hdf => absurd hdf (by simp))

theorem updateAssoc_ne_nil {α : Type} (l : List (Str × α)) (k : Str) (v : α) :
    updateAssoc l k v ≠ [] := by
  cases l with
  | nil => simp [updateAssoc]
  | cons p t =>
    rw [show updateAssoc (p :: t) k v =
      (if p.1 = k then (p.1, v) :: t else p :: updateAssoc t k v) from rfl]
    split <;> simp

theorem updateAll_eq_nil_iff {α : Type} (acc l : List (Str × α)) :
    updateAll acc l = [] ↔ acc = [] ∧ l = [] := by
  induction l generalizing acc with
  | nil => simp [updateAll]
  | cons p t ih =>
    rw [show updateAll acc (p :: t) = updateAll (updateAssoc acc p.1 p.2) t from rfl]
    rw [ih]
    simp [updateAssoc_ne_nil]

/-- Reference scan, following the amended claim's words: candidate files
are processed in order; every existing candidate is loaded until (and
including) the first one whose extraction yields a non-empty
`power_curve_parameters` mapping, where the scan stops; an extraction
yielding only capacity factors does not stop it; this rule applies in
the identifier-specific path and the aggregate path alike. -/
def specScanFiles (env : Str → Option DataFrame) (nf orig : Option Str) :
    List Str → List Str
  | [] => []
  | f :: rest =>
    match env f with
    | none => specScanFiles env nf orig rest
    | some df =>
      f :: (if (DataAccess.extract_farm_data df nf orig).power_curve_parameters.isEmpty then
        specScanFiles env nf orig rest else [])

theorem pcLoop_source_files (env : Str → Option DataFrame) (nf orig : Option Str)
    (files : List Str) (acc : DataAccess.PCResult)
    (hacc : acc.power_curve_parameters = []) :
    (DataAccess.pcLoop env nf orig files acc).source_files =
      acc.source_files ++ specScanFiles env nf orig files := by
  induction files generalizing acc with
  | nil =>
    rw [show specScanFiles env nf orig [] = [] from rfl, List.append_nil]
    rfl
  | cons f rest ih =>
    cases henv : env f with
    | none =>
      simp only [DataAccess.pcLoop, specScanFiles, henv]
      exact ih acc hacc
    | some df =>
      simp only [DataAccess.pcLoop, specScanFiles, henv]
      rw [hacc]
      rcases hpcp : (DataAccess.extract_farm_data df nf orig).power_curve_parameters with
        _ | ⟨p, t⟩
      · rw [if_neg (by simp [updateAll])]
        rw [ih _ (by simp [updateAll])]
        simp
      · rw [if_pos (by
          have hne : updateAll ([] : List (Str × ℚ)) (p :: t) ≠ [] := by
            rw [Ne, updateAll_eq_nil_iff]
            simp
          exact List.length_pos.mpr hne)]
        simp

/-- C3 counterexample: the first candidate file's extraction yields a
non-null value (a capacity-factor cell) for the requested farm, yet the second
candidate file is still loaded and merged — the identifier-specific scan
does not stop at the first non-null yield. -/
theorem C3_counterexample :
    DataAccess.extract_farm_data
        { columns := [S "wind_farm", S "capacity_factor"],
          rows := [[PdVal.pstr (S "wp1"), PdVal.pnum 4]] }
        (some (S "wp1")) (some (S "wp1")) =
      { power_curve_parameters := [], capacity_factors := [(S "capacity_factor", 4)] } ∧
    DataAccess.get_wind_farm_data
        (fun f =>
          if f = S "power_curve_parameters.parquet" then
            some { columns := [S "wind_farm", S "capacity_factor"],
                   rows := [[PdVal.pstr (S "wp1"), PdVal.pnum 4]] }
          else if f = S "02_wind_physics_analysis.parquet" then
            some { columns := [S "wind_farm", S "cut_in_speed"],
                   rows := [[PdVal.pstr (S "wp1"), PdVal.pnum 3]] }
          else none)
        (some (S "wp1")) (S "power_curve") =
      .power_curve
        { wind_farm := some (S "wp1"), method := S "integrated_data_access",
          data_type := S "power_curve",
          power_curve_parameters := [(S "cut_in_speed", 3)],
          capacity_factors := [(S "capacity_factor", 4)],
          data_quality := [],
          source_files := [S "power_curve_parameters.parquet",
                           S "02_wind_physics_analysis.parquet"],
          files_processed := 2, wind_farm_normalized := some (S "wp1") } := by decide

/-- C3 amended: in the identifier-specific path and the aggregate path
alike, the candidate scan stops exactly after the first successfully
loaded file whose extraction yields a non-empty `power_curve_parameters`
mapping; extractions yielding only capacity factors (or nothing) do not
stop it, and with no stopping file every existing candidate is loaded
and merged.  `source_files` equals the reference scan `specScanFiles`
built from this rule. -/
theorem C3_amended_scan_stops_on_power_curve_yield (env : Str → Option DataFrame)
    (wind_farm : Option Str) :
    (DataAccess.get_power_curve_data env wind_farm).source_files =
      specScanFiles env (wind_farm.bind DataAccess.normalize_wind_farm_id) wind_farm
        DataAccess.file_mapping_power_curve := by
  rw [DataAccess.get_power_curve_data, DataAccess.pcAssemble]
  exact pcLoop_source_files env _ wind_farm DataAccess.file_mapping_power_curve
    (DataAccess.pcInit wind_farm) rfl
